import Mathlib

/-!
Verification of the step-planning and step-sequencing logic of the raft-fi
SDK (`src/src/position/user-position.ts`, helpers in `src/unnamed/part_002`).

The embedding models `Decimal` values by their raw fixed-point integer value
(the library stores an arbitrary-precision integer with 18 decimals), the
async generator `getManageSteps` as a pure function from its inputs, the
prefetched options, the chain state it would read, and the list of values
injected at each resume point, to the list of yielded steps together with an
optional error (the exception that ends the generator run, thrown after the
listed steps were yielded).
-/

namespace RaftSdk

/-- The token universe, from `TOKENS` in the types module (src/src/price/feed.ts
region holding types.ts): stETH, rETH-v1, the underlying collateral tokens,
RAFT, veRAFT, R, RR and the Balancer pool token. -/
inductive Token where
  | stETH
  | rETHv1
  | wstETH
  | wstETHv1
  | WETH
  | rETH
  | WBTC
  | cbETH
  | swETH
  | wcrETHv1
  | RAFT
  | veRAFT
  | R
  | RR
  | raftBpt
  deriving DecidableEq, Repr

/-- Mirrors `isWrappableCappedCollateralToken` from utils/token.ts:
`WRAPPABLE_CAPPED_COLLATERAL_TOKENS = ['rETH-v1']`. -/
def isWrappableCappedCollateralToken : Token → Bool
  | .rETHv1 => true
  | _ => false

/-- Mirrors `isUnderlyingCollateralToken` (the module-level predicate) from
utils/token.ts: membership in `UNDERLYING_COLLATERAL_TOKENS =
['wstETH', 'wstETH-v1', 'WETH', 'rETH', 'WBTC', 'cbETH', 'swETH', 'wcrETH-v1']`. -/
def isUnderlyingCollateralToken : Token → Bool
  | .wstETH => true
  | .wstETHv1 => true
  | .WETH => true
  | .rETH => true
  | .WBTC => true
  | .cbETH => true
  | .swETH => true
  | .wcrETHv1 => true
  | _ => false

/-- Mirrors `isCollateralToken` from utils/token.ts: `COLLATERAL_TOKENS = ['stETH',
'rETH-v1', ...UNDERLYING_COLLATERAL_TOKENS]`. -/
def isCollateralToken (t : Token) : Bool :=
  t == .stETH || isWrappableCappedCollateralToken t || isUnderlyingCollateralToken t

/-- A `Decimal` of the @tempusfinance/decimal library, modelled by its raw
fixed-point value (a signed arbitrary-precision integer scaled by 10^18). -/
abbrev Dec := Int

/-- Mirrors `Decimal.MAX_DECIMAL`: the largest representable decimal (raw value
2^256 - 1). -/
def MAX_DECIMAL : Dec := 2 ^ 256 - 1

/-- Mirrors `const DEBT_CHANGE_TO_CLOSE = Decimal.MAX_DECIMAL.mul(-1)`
(user-position.ts:112), the sentinel debt change of the close intent. -/
def DEBT_CHANGE_TO_CLOSE : Dec := MAX_DECIMAL * (-1)

/-- The Ethereum zero address. -/
def zeroAddress : String := "0x0000000000000000000000000000000000000000"

/-- Thirty-two zero bytes, the empty signature component. -/
def zeroBytes32 : String :=
  "0x0000000000000000000000000000000000000000000000000000000000000000"

/-- Mirrors `ERC20PermitSignatureStruct`: the permit payload threaded into the
terminal call (token address, value, deadline, and the v, r, s signature
components). -/
structure ERC20PermitSignatureStruct where
  token : String
  value : Int
  deadline : Int
  v : Nat
  r : String
  s : String
  deriving DecidableEq, Repr

/-- Mirrors `createEmptyPermitSignature()` from utils/permit.ts: the well-known
"no permit used" sentinel. -/
def createEmptyPermitSignature : ERC20PermitSignatureStruct :=
  { token := zeroAddress
    value := 0
    deadline := 0
    v := 0
    r := zeroBytes32
    s := zeroBytes32 }

/-- The `type.name` (plus `type.token` payload) of a yielded step. -/
inductive ManageStepName where
  | whitelist
  | approve (token : Token)
  | permit (token : Token)
  | manage
  deriving DecidableEq, Repr

/-- Which position-manager contract the terminal step calls: the base
`PositionManager` (`this.positionManager.managePosition`), the wrapped
delegate (`getPositionManagerContract('wrapped', ...)`) or the stETH delegate
(`getPositionManagerContract('stETH', ...).managePositionStETH`). -/
inductive PositionManagerKind where
  | base
  | wrapped
  | stETH
  deriving DecidableEq, Repr

/-- The argument list of the terminal `managePosition` call. The base branch
passes the collateral token address and the collateral permit signature; the
delegate branches omit the token and pass the R permit signature. -/
structure ManagePositionCallArgs where
  collateralTokenForCall : Option Token
  absoluteCollateralChangeValue : Int
  isCollateralIncrease : Bool
  absoluteDebtChangeValue : Int
  isDebtIncrease : Bool
  maxFeePercentageValue : Int
  permitSignature : ERC20PermitSignatureStruct
  deriving DecidableEq, Repr

/-- What a step's `action` closure does when invoked, as a descriptor:
submit the whitelist transaction, submit an approval for exactly the given
amount, sign a permit for the given amount, or submit the terminal
`managePosition` transaction. -/
inductive StepAction where
  | whitelistDelegate (delegateAddress : String)
  | approveTx (token : Token) (spenderAddress : String) (amount : Dec)
  | signPermit (token : Token) (spenderAddress : String) (amount : Dec)
  | managePosition (kind : PositionManagerKind) (args : ManagePositionCallArgs)
  deriving DecidableEq, Repr

/-- A yielded `ManagePositionStep`: its type, 1-based step number, the fixed
plan-wide number of steps, and its action descriptor. -/
structure ManagePositionStep where
  type : ManageStepName
  stepNumber : Nat
  numberOfSteps : Nat
  action : StepAction
  deriving DecidableEq, Repr

/-- The errors `getManageSteps` can throw: the both-changes-zero guard
(user-position.ts:356), the missing-permit-signature guard
(user-position.ts:1087) and the unsupported collateral-token guard
(user-position.ts:516). -/
inductive ManageStepsError where
  | invalidIntent
  | permitSignatureRequired (token : Token)
  | unsupportedCollateralToken (underlying : Token) (collateral : Token)
  deriving DecidableEq, Repr

/-- Mirrors `options.approvalType`, `'permit' | 'approve'` (default `'permit'`). -/
inductive ApprovalType where
  | permit
  | approve
  deriving DecidableEq, Repr

/-- The inputs of one `getManageSteps` invocation: the position's underlying
collateral token (the class's type parameter), the two changes, and the
options object including every prefetch escape hatch of
`ManagePositionStepsPrefetch`. -/
structure ManageStepsInputs where
  underlyingCollateralToken : Token
  collateralChange : Dec
  debtChange : Dec
  maxFeePercentage : Dec
  approvalType : ApprovalType
  collateralTokenOption : Option Token
  isDelegateWhitelisted : Option Bool
  collateralTokenAllowance : Option Dec
  rTokenAllowance : Option Dec
  collateralPermitSignature : Option ERC20PermitSignatureStruct
  rPermitSignature : Option ERC20PermitSignatureStruct
  deriving Repr

/-- The chain state and configuration `getManageSteps` would read when the
prefetch options do not supply a value: the EOA check on the owner, the
delegate whitelist flag, the two allowances, the per-token
`supportsPermit` configuration, whether `getTokenContract` returns a non-null
contract for a token, and the per-route position-manager address. -/
structure ChainState where
  isEoaPositionOwner : Bool
  fetchedIsDelegateWhitelisted : Bool
  fetchedCollateralTokenAllowance : Dec
  fetchedRTokenAllowance : Dec
  supportsPermit : Token → Bool
  hasTokenContract : Token → Bool
  positionManagerAddressOf : Token → Token → String
  userAddress : String

/-- Mirrors `PositionWithRunner.isUnderlyingCollateralToken` (the
position/base.ts section concatenated into src/src/price/feed.ts:438-440):
`return this.underlyingCollateralToken === collateralToken`, i.e. whether the
given token equals the position's underlying collateral token. -/
def isUnderlyingTokenForPosition (inp : ManageStepsInputs) (ct : Token) : Bool :=
  inp.underlyingCollateralToken == ct

/-- The collateral token actually used: user-position.ts:351-362 replaces the
caller-supplied option by the position's underlying token whenever the
collateral change is zero and the debt change is not the close sentinel. -/
def effectiveCollateralToken (inp : ManageStepsInputs) : Token :=
  if inp.collateralChange == 0 && !(inp.debtChange == DEBT_CHANGE_TO_CLOSE) then
    inp.underlyingCollateralToken
  else
    inp.collateralTokenOption.getD inp.underlyingCollateralToken

/-- Mirrors `whitelistingRequired = !isUnderlyingToken` (user-position.ts:371). -/
def whitelistingRequired (inp : ManageStepsInputs) (ct : Token) : Bool :=
  !(isUnderlyingTokenForPosition inp ct)

/-- Mirrors `collateralTokenAllowanceRequired = collateralTokenContract !== null &&
isCollateralIncrease` (user-position.ts:373). -/
def collateralTokenAllowanceRequired (inp : ManageStepsInputs) (st : ChainState)
    (ct : Token) : Bool :=
  st.hasTokenContract ct && decide (inp.collateralChange > 0)

/-- Mirrors `rTokenAllowanceRequired = !isDebtIncrease && !isUnderlyingToken`
(user-position.ts:374). -/
def rTokenAllowanceRequired (inp : ManageStepsInputs) (ct : Token) : Bool :=
  !(decide (inp.debtChange > 0)) && !(isUnderlyingTokenForPosition inp ct)

/-- The delegate-whitelist flag after the lazy fetch of
user-position.ts:386-390: the prefetched value if supplied, otherwise the
chain read when whitelisting is required, otherwise `false`. -/
def resolvedIsDelegateWhitelisted (inp : ManageStepsInputs) (st : ChainState)
    (ct : Token) : Bool :=
  inp.isDelegateWhitelisted.getD
    (if whitelistingRequired inp ct then st.fetchedIsDelegateWhitelisted else false)

/-- The collateral-token allowance after the lazy fetch of
user-position.ts:393-397 (`MAX_DECIMAL` when no allowance check is needed). -/
def resolvedCollateralTokenAllowance (inp : ManageStepsInputs) (st : ChainState)
    (ct : Token) : Dec :=
  inp.collateralTokenAllowance.getD
    (if collateralTokenAllowanceRequired inp st ct then
      st.fetchedCollateralTokenAllowance
    else MAX_DECIMAL)

/-- The R-token allowance after the lazy fetch of user-position.ts:400-404. -/
def resolvedRTokenAllowance (inp : ManageStepsInputs) (st : ChainState)
    (ct : Token) : Dec :=
  inp.rTokenAllowance.getD
    (if rTokenAllowanceRequired inp ct then st.fetchedRTokenAllowance else MAX_DECIMAL)

/-- Mirrors `canUsePermit = isEoaPositionOwner && approvalType === 'permit'`
(user-position.ts:407). -/
def canUsePermit (inp : ManageStepsInputs) (st : ChainState) : Bool :=
  st.isEoaPositionOwner && inp.approvalType == .permit

/-- Mirrors `canCollateralTokenUsePermit = collateralTokenConfig.supportsPermit &&
canUsePermit` (user-position.ts:409). -/
def canCollateralTokenUsePermit (inp : ManageStepsInputs) (st : ChainState)
    (ct : Token) : Bool :=
  st.supportsPermit ct && canUsePermit inp st

/-- Mirrors `whitelistingStepNeeded` (user-position.ts:411). -/
def whitelistingStepNeeded (inp : ManageStepsInputs) (st : ChainState)
    (ct : Token) : Bool :=
  whitelistingRequired inp ct && !(resolvedIsDelegateWhitelisted inp st ct)

/-- Mirrors `collateralApprovalStepNeeded` (user-position.ts:412-415): the allowance
check applies, the current allowance is below the collateral change, and
either permit cannot be used or no cached collateral permit signature was
supplied. -/
def collateralApprovalStepNeeded (inp : ManageStepsInputs) (st : ChainState)
    (ct : Token) : Bool :=
  collateralTokenAllowanceRequired inp st ct
    && decide (inp.collateralChange > resolvedCollateralTokenAllowance inp st ct)
    && (!(canCollateralTokenUsePermit inp st ct) || inp.collateralPermitSignature.isNone)

/-- Mirrors `rTokenApprovalStepNeeded` (user-position.ts:416-419). -/
def rTokenApprovalStepNeeded (inp : ManageStepsInputs) (st : ChainState)
    (ct : Token) : Bool :=
  rTokenAllowanceRequired inp ct
    && decide (|inp.debtChange| > resolvedRTokenAllowance inp st ct)
    && (!(canUsePermit inp st) || inp.rPermitSignature.isNone)

/-- The count of needed optional steps (whitelist, collateral authorization,
R-token authorization), the first summand of user-position.ts:423-424. -/
def neededOptionalStepCount (inp : ManageStepsInputs) (st : ChainState)
    (ct : Token) : Nat :=
  (if whitelistingStepNeeded inp st ct then 1 else 0)
    + (if collateralApprovalStepNeeded inp st ct then 1 else 0)
    + (if rTokenApprovalStepNeeded inp st ct then 1 else 0)

/-- Mirrors `numberOfSteps`, user-position.ts:423-424: the needed optional steps plus
the one required `manage` step. -/
def numberOfManageSteps (inp : ManageStepsInputs) (st : ChainState)
    (ct : Token) : Nat :=
  neededOptionalStepCount inp st ct + 1

/-- The generator's running state: the steps yielded so far (in order), the
`stepCounter`, and the values still to be injected at the coming resume
points (`steps.next(value)`), one entry per yielded step. -/
structure GenState where
  steps : List ManagePositionStep
  counter : Nat
  resumes : List (Option ERC20PermitSignatureStruct)

/-- One `yield`: append the step (its `stepNumber` is the current counter,
`stepCounter++`), and hand back the value the driver injects when it resumes
past this step (`undefined` when the driver passes nothing). -/
def GenState.emit (g : GenState) (name : ManageStepName) (n : Nat)
    (a : StepAction) : GenState × Option ERC20PermitSignatureStruct :=
  ({ steps := g.steps ++ [{ type := name, stepNumber := g.counter, numberOfSteps := n, action := a }]
     counter := g.counter + 1
     resumes := g.resumes.tail }
   , g.resumes.head?.join)

/-- Mirrors `getWhitelistStep` (user-position.ts:1043-1056): yield the one whitelist
step whose action submits `whitelistDelegate(delegatorAddress, true)`. -/
def getWhitelistStep (delegateAddress : String) (n : Nat) (g : GenState) : GenState :=
  (g.emit .whitelist n (.whitelistDelegate delegateAddress)).1

/-- Mirrors `getSignTokenPermitStep` (user-position.ts:1065-1091): use the cached
signature if supplied; otherwise yield the permit step (whose action signs a
fresh permit via `createPermitSignature`) and take the injected resume value;
if the resulting signature is missing, throw the signature-required error. -/
def getSignTokenPermitStep (token : Token) (approveAmount : Dec)
    (spenderAddress : String) (n : Nat)
    (cachedSignature : Option ERC20PermitSignatureStruct) (g : GenState) :
    GenState × Except ManageStepsError ERC20PermitSignatureStruct :=
  match cachedSignature with
  | some sig => (g, .ok sig)
  | none =>
    match g.emit (.permit token) n (.signPermit token spenderAddress approveAmount) with
    | (g1, some sig) => (g1, .ok sig)
    | (g1, none) => (g1, .error (.permitSignatureRequired token))

/-- Mirrors `getApproveTokenStep` (user-position.ts:1093-1110): yield the one approve
step whose action calls `tokenContract.approve(spenderAddress, amount)` for
exactly the requested amount. -/
def getApproveTokenStep (token : Token) (approveAmount : Dec)
    (spenderAddress : String) (n : Nat) (g : GenState) : GenState :=
  (g.emit (.approve token) n (.approveTx token spenderAddress approveAmount)).1

/-- Mirrors `getApproveOrPermitStep` (user-position.ts:1112-1146): a permit step when
`canUsePermit`, otherwise an approve step; returns the permit signature to
embed in the terminal call (the empty sentinel on the approve path). -/
def getApproveOrPermitStep (token : Token) (approveAmount : Dec)
    (spenderAddress : String) (n : Nat) (canPermit : Bool)
    (cachedPermitSignature : Option ERC20PermitSignatureStruct) (g : GenState) :
    GenState × Except ManageStepsError ERC20PermitSignatureStruct :=
  if canPermit then
    getSignTokenPermitStep token approveAmount spenderAddress n cachedPermitSignature g
  else
    (getApproveTokenStep token approveAmount spenderAddress n g, .ok createEmptyPermitSignature)

/-- Mirrors `RaftConfig.getPositionManagerAddress(this.underlyingCollateralToken,
collateralToken)` (user-position.ts:375-378). -/
def posMgrAddr (inp : ManageStepsInputs) (st : ChainState) (ct : Token) : String :=
  st.positionManagerAddressOf inp.underlyingCollateralToken ct

/-- The terminal part of `getManageSteps` (user-position.ts:460-519): yield
the `manage` step on the route selected by the collateral token (the base
position manager for an underlying token, embedding the collateral permit
signature; the wrapped or stETH delegate otherwise, embedding the R permit
signature), or throw the unsupported-route error. -/
def manageTerminalStage (inp : ManageStepsInputs) (st : ChainState) (ct : Token)
    (collateralPermitSignature rPermitSignature : ERC20PermitSignatureStruct)
    (g3 : GenState) : List ManagePositionStep × Option ManageStepsError :=
  if isUnderlyingCollateralToken ct then
    ((g3.emit .manage (numberOfManageSteps inp st ct) (.managePosition .base
      { collateralTokenForCall := some ct
        absoluteCollateralChangeValue := |inp.collateralChange|
        isCollateralIncrease := decide (inp.collateralChange > 0)
        absoluteDebtChangeValue := |inp.debtChange|
        isDebtIncrease := decide (inp.debtChange > 0)
        maxFeePercentageValue := inp.maxFeePercentage
        permitSignature := collateralPermitSignature })).1.steps, none)
  else if isWrappableCappedCollateralToken ct
      || (ct == .stETH && inp.underlyingCollateralToken == .wstETH) then
    ((g3.emit .manage (numberOfManageSteps inp st ct) (.managePosition
      (if isWrappableCappedCollateralToken ct then .wrapped else .stETH)
      { collateralTokenForCall := none
        absoluteCollateralChangeValue := |inp.collateralChange|
        isCollateralIncrease := decide (inp.collateralChange > 0)
        absoluteDebtChangeValue := |inp.debtChange|
        isDebtIncrease := decide (inp.debtChange > 0)
        maxFeePercentageValue := inp.maxFeePercentage
        permitSignature := rPermitSignature })).1.steps, none)
  else
    (g3.steps, some (.unsupportedCollateralToken inp.underlyingCollateralToken ct))

/-- The run from the R-token authorization stage on (user-position.ts:447-519),
given the generator state after the collateral stage and the collateral permit
signature that stage returned. -/
def manageAfterCollateralStage (inp : ManageStepsInputs) (st : ChainState) (ct : Token)
    (collateralPermitSignature : ERC20PermitSignatureStruct) (g2 : GenState) :
    List ManagePositionStep × Option ManageStepsError :=
  match (if rTokenApprovalStepNeeded inp st ct then
      getApproveOrPermitStep .R (|inp.debtChange|) (posMgrAddr inp st ct)
        (numberOfManageSteps inp st ct) (canUsePermit inp st) inp.rPermitSignature g2
    else (g2, Except.ok createEmptyPermitSignature)) with
  | (g3, .error e) => (g3.steps, some e)
  | (g3, .ok rPermitSignature) =>
    manageTerminalStage inp st ct collateralPermitSignature rPermitSignature g3

/-- The body of `getManageSteps` after the intent guard and collateral-token
override (user-position.ts:364-520), for the already-chosen collateral token:
the optional whitelist step, the optional collateral authorization, the
optional R-token authorization, then the terminal `manage` step. Returns the
yielded steps and the error that ended the run, if any. -/
def getManageStepsWith (inp : ManageStepsInputs) (st : ChainState) (ct : Token)
    (resumes : List (Option ERC20PermitSignatureStruct)) :
    List ManagePositionStep × Option ManageStepsError :=
  let g0 : GenState := { steps := [], counter := 1, resumes := resumes }
  let g1 := if whitelistingStepNeeded inp st ct then
    getWhitelistStep (posMgrAddr inp st ct) (numberOfManageSteps inp st ct) g0
  else g0
  match (if collateralApprovalStepNeeded inp st ct then
      getApproveOrPermitStep ct inp.collateralChange (posMgrAddr inp st ct)
        (numberOfManageSteps inp st ct)
        (canCollateralTokenUsePermit inp st ct) inp.collateralPermitSignature g1
    else (g1, Except.ok createEmptyPermitSignature)) with
  | (g2, .error e) => (g2.steps, some e)
  | (g2, .ok collateralPermitSignature) =>
    manageAfterCollateralStage inp st ct collateralPermitSignature g2

/-- Mirrors `getManageSteps` (user-position.ts:340-520): throw the invalid-intent
error when both changes are zero (and the debt change is not the close
sentinel), otherwise run the plan for the effective collateral token. -/
def getManageSteps (inp : ManageStepsInputs) (st : ChainState)
    (resumes : List (Option ERC20PermitSignatureStruct)) :
    List ManagePositionStep × Option ManageStepsError :=
  if inp.collateralChange == 0 && !(inp.debtChange == DEBT_CHANGE_TO_CLOSE)
      && inp.debtChange == 0 then
    ([], some .invalidIntent)
  else
    getManageStepsWith inp st (effectiveCollateralToken inp) resumes

/-- The condition under which the terminal branch of `getManageSteps`
(user-position.ts:460-519) does not throw: the collateral token is an
underlying token, a wrappable capped token, or stETH over a wstETH
position. -/
def routeSupported (inp : ManageStepsInputs) (ct : Token) : Bool :=
  isUnderlyingCollateralToken ct || isWrappableCappedCollateralToken ct
    || (ct == .stETH && inp.underlyingCollateralToken == .wstETH)

/-- The whitelist step the plan holds when whitelisting is needed: always
first, whence `stepNumber = 1`. -/
def expectedWhitelistStep (inp : ManageStepsInputs) (st : ChainState)
    (ct : Token) : ManagePositionStep :=
  { type := .whitelist
    stepNumber := 1
    numberOfSteps := numberOfManageSteps inp st ct
    action := .whitelistDelegate (posMgrAddr inp st ct) }

/-- The step number of the collateral authorization step: right after the
whitelist step when that one is needed. -/
def collAuthStepNumber (inp : ManageStepsInputs) (st : ChainState) (ct : Token) : Nat :=
  if whitelistingStepNeeded inp st ct then 2 else 1

/-- The collateral authorization step the plan holds when needed: a permit
step when the collateral token can use permit, otherwise an approve step,
both for exactly the collateral change. -/
def expectedCollateralAuthStep (inp : ManageStepsInputs) (st : ChainState)
    (ct : Token) : ManagePositionStep :=
  if canCollateralTokenUsePermit inp st ct then
    { type := .permit ct
      stepNumber := collAuthStepNumber inp st ct
      numberOfSteps := numberOfManageSteps inp st ct
      action := .signPermit ct (posMgrAddr inp st ct) inp.collateralChange }
  else
    { type := .approve ct
      stepNumber := collAuthStepNumber inp st ct
      numberOfSteps := numberOfManageSteps inp st ct
      action := .approveTx ct (posMgrAddr inp st ct) inp.collateralChange }

/-- The step number of the R-token authorization step. -/
def rAuthStepNumber (inp : ManageStepsInputs) (st : ChainState) (ct : Token) : Nat :=
  collAuthStepNumber inp st ct
    + (if collateralApprovalStepNeeded inp st ct then 1 else 0)

/-- The R-token authorization step the plan holds when needed, for exactly
the absolute debt change. -/
def expectedRTokenAuthStep (inp : ManageStepsInputs) (st : ChainState)
    (ct : Token) : ManagePositionStep :=
  if canUsePermit inp st then
    { type := .permit .R
      stepNumber := rAuthStepNumber inp st ct
      numberOfSteps := numberOfManageSteps inp st ct
      action := .signPermit .R (posMgrAddr inp st ct) |inp.debtChange| }
  else
    { type := .approve .R
      stepNumber := rAuthStepNumber inp st ct
      numberOfSteps := numberOfManageSteps inp st ct
      action := .approveTx .R (posMgrAddr inp st ct) |inp.debtChange| }

/-- Which position-manager route the terminal step takes, per the branch
structure of user-position.ts:460-519. -/
def expectedManageKind (inp : ManageStepsInputs) (ct : Token) : PositionManagerKind :=
  if isUnderlyingCollateralToken ct then .base
  else if isWrappableCappedCollateralToken ct then .wrapped
  else .stETH

/-- The terminal manage step, carrying the given embedded permit signature
(the collateral one on the base route, the R one on the delegate routes). -/
def expectedManageStep (inp : ManageStepsInputs) (st : ChainState) (ct : Token)
    (sig : ERC20PermitSignatureStruct) : ManagePositionStep :=
  { type := .manage
    stepNumber := numberOfManageSteps inp st ct
    numberOfSteps := numberOfManageSteps inp st ct
    action := .managePosition (expectedManageKind inp ct)
      { collateralTokenForCall := if isUnderlyingCollateralToken ct then some ct else none
        absoluteCollateralChangeValue := |inp.collateralChange|
        isCollateralIncrease := decide (inp.collateralChange > 0)
        absoluteDebtChangeValue := |inp.debtChange|
        isDebtIncrease := decide (inp.debtChange > 0)
        maxFeePercentageValue := inp.maxFeePercentage
        permitSignature := sig } }

/-- The (zero- or one-element) whitelist segment of the plan. -/
def wPart (inp : ManageStepsInputs) (st : ChainState) (ct : Token) :
    List ManagePositionStep :=
  if whitelistingStepNeeded inp st ct then [expectedWhitelistStep inp st ct] else []

/-- The (zero- or one-element) collateral authorization segment of the plan. -/
def cPart (inp : ManageStepsInputs) (st : ChainState) (ct : Token) :
    List ManagePositionStep :=
  if collateralApprovalStepNeeded inp st ct then [expectedCollateralAuthStep inp st ct] else []

/-- The (zero- or one-element) R-token authorization segment of the plan. -/
def rPart (inp : ManageStepsInputs) (st : ChainState) (ct : Token) :
    List ManagePositionStep :=
  if rTokenApprovalStepNeeded inp st ct then [expectedRTokenAuthStep inp st ct] else []

/-- The injection list as it stands when the collateral authorization stage
runs (the whitelist step, when yielded, has consumed one entry). -/
def resumesAfterW (inp : ManageStepsInputs) (st : ChainState) (ct : Token)
    (resumes : List (Option ERC20PermitSignatureStruct)) :
    List (Option ERC20PermitSignatureStruct) :=
  if whitelistingStepNeeded inp st ct then resumes.tail else resumes

/-- The injection list as it stands when the R-token authorization stage
runs. -/
def resumesAfterWC (inp : ManageStepsInputs) (st : ChainState) (ct : Token)
    (resumes : List (Option ERC20PermitSignatureStruct)) :
    List (Option ERC20PermitSignatureStruct) :=
  if collateralApprovalStepNeeded inp st ct then (resumesAfterW inp st ct resumes).tail
  else resumesAfterW inp st ct resumes

/-- The value injected at the resume point right after the collateral permit
step. -/
def collInjected (inp : ManageStepsInputs) (st : ChainState) (ct : Token)
    (resumes : List (Option ERC20PermitSignatureStruct)) :
    Option ERC20PermitSignatureStruct :=
  (resumesAfterW inp st ct resumes).head?.join

/-- The value injected at the resume point right after the R-token permit
step. -/
def rInjected (inp : ManageStepsInputs) (st : ChainState) (ct : Token)
    (resumes : List (Option ERC20PermitSignatureStruct)) :
    Option ERC20PermitSignatureStruct :=
  (resumesAfterWC inp st ct resumes).head?.join

def wState : ChainState :=
  { isEoaPositionOwner := true
    fetchedIsDelegateWhitelisted := false
    fetchedCollateralTokenAllowance := 0
    fetchedRTokenAllowance := 0
    supportsPermit := fun _ => true
    hasTokenContract := fun _ => true
    positionManagerAddressOf := fun _ _ => "0xpm"
    userAddress := "0xowner" }

def wInpPlain : ManageStepsInputs :=
  { underlyingCollateralToken := .wstETH
    collateralChange := 3
    debtChange := 2
    maxFeePercentage := 1
    approvalType := .approve
    collateralTokenOption := none
    isDelegateWhitelisted := some true
    collateralTokenAllowance := some 100
    rTokenAllowance := some 100
    collateralPermitSignature := none
    rPermitSignature := none }

def wInpAllSteps : ManageStepsInputs :=
  { underlyingCollateralToken := .wstETH
    collateralChange := 10
    debtChange := -5
    maxFeePercentage := 1
    approvalType := .approve
    collateralTokenOption := some .stETH
    isDelegateWhitelisted := some false
    collateralTokenAllowance := some 0
    rTokenAllowance := some 0
    collateralPermitSignature := none
    rPermitSignature := none }

def c6CachedSig : ERC20PermitSignatureStruct :=
  { token := "0x7f39c581f595b53c5cb19bd0b3f8da6c935e2ca0"
    value := 0
    deadline := 1
    v := 27
    r := "0x01"
    s := "0x02" }

def c6Inp : ManageStepsInputs :=
  { underlyingCollateralToken := .wstETH
    collateralChange := 100
    debtChange := 50
    maxFeePercentage := 1
    approvalType := .permit
    collateralTokenOption := some .wstETH
    isDelegateWhitelisted := some true
    collateralTokenAllowance := some 0
    rTokenAllowance := some 0
    collateralPermitSignature := some c6CachedSig
    rPermitSignature := none }

/-- Concrete inputs for a debt-only adjustment: zero collateral change, a
debt repayment of 7, and a caller-supplied non-underlying collateral token
that the planner must replace. -/
def wInpDebtOnly : ManageStepsInputs :=
  { underlyingCollateralToken := .wstETH
    collateralChange := 0
    debtChange := -7
    maxFeePercentage := 1
    approvalType := .permit
    collateralTokenOption := some .stETH
    isDelegateWhitelisted := some false
    collateralTokenAllowance := some 0
    rTokenAllowance := some 0
    collateralPermitSignature := none
    rPermitSignature := none }

/-- Concrete inputs for a collateral deposit by an EOA owner who prefers
permit, with an insufficient prefetched collateral allowance: the plan needs
exactly one permit step for the underlying collateral token. -/
def wInpPermit : ManageStepsInputs :=
  { underlyingCollateralToken := .wstETH
    collateralChange := 10
    debtChange := 2
    maxFeePercentage := 1
    approvalType := .permit
    collateralTokenOption := none
    isDelegateWhitelisted := some true
    collateralTokenAllowance := some 0
    rTokenAllowance := some 100
    collateralPermitSignature := none
    rPermitSignature := none }

/-- Mirrors `PERMIT_DEADLINE_SHIFT = 30 * 60` seconds (utils/permit.ts, src/unnamed/part_002). -/
def PERMIT_DEADLINE_SHIFT : Nat := 30 * 60

/-- The EIP-712 payload `createPermitSignature` submits to
`signer.signTypedData(domain, TYPES, values)`: the domain (token name,
version '1', the network's chain id, the token's address) and the Permit
message values (owner, spender, value, nonce, deadline). -/
structure PermitSignRequest where
  domainName : String
  domainVersion : String
  domainChainId : Nat
  domainVerifyingContract : String
  owner : String
  spender : String
  value : Dec
  nonce : Nat
  deadline : Nat
  deriving DecidableEq, Repr

/-- The domain and values built by `createPermitSignature`
(src/unnamed/part_002:103-132): deadline is `Math.floor(Date.now() / 1000)`
plus the 30-minute shift, the domain is bound to the token's on-chain name
(`tokenContract.name()`), version '1', `RaftConfig.networkId` and the token's
address. -/
def permitSignRequest (nowMs : Nat) (networkId : Nat) (signerAddress : String)
    (nonce : Nat) (tokenAddress tokenName : String) (amount : Dec)
    (spenderAddress : String) : PermitSignRequest :=
  { domainName := tokenName
    domainVersion := "1"
    domainChainId := networkId
    domainVerifyingContract := tokenAddress
    owner := signerAddress
    spender := spenderAddress
    value := amount
    nonce := nonce
    deadline := nowMs / 1000 + PERMIT_DEADLINE_SHIFT }

/-- Mirrors `createPermitSignature(signer, amount, spenderAddress, tokenContract)`
(src/unnamed/part_002:103-143), with the chain reads (nonce, token address,
token name), the clock and the signer's typed-data signing modelled as
inputs: builds the EIP-712 request and returns the permit signature struct
holding the token address, the raw amount, the deadline and the signature
components produced by the signer over exactly that request. -/
def createPermitSignature (nowMs : Nat) (networkId : Nat) (signerAddress : String)
    (nonce : Nat) (tokenAddress tokenName : String) (amount : Dec)
    (spenderAddress : String)
    (sign : PermitSignRequest → Nat × String × String) : ERC20PermitSignatureStruct :=
  let req := permitSignRequest nowMs networkId signerAddress nonce tokenAddress
    tokenName amount spenderAddress
  let vrs := sign req
  { token := tokenAddress
    value := amount
    deadline := (nowMs / 1000 + PERMIT_DEADLINE_SHIFT : Nat)
    v := vrs.1
    r := vrs.2.1
    s := vrs.2.2 }

/-- What a step's awaited action does in a driven `manage` run (external to
the SDK): resolve to a transaction that confirms, resolve to a transaction
whose `wait()` rejects, reject outright, or resolve to a permit signature. -/
inductive ActionOutcome where
  | txConfirmed
  | txWaitFailed (e : String)
  | actionRejected (e : String)
  | signature (sig : ERC20PermitSignatureStruct)
  deriving DecidableEq, Repr

/-- The lifecycle callbacks the `manage` driver can invoke, with the
argument they are invoked with. -/
inductive DriverEvent where
  | delegateWhitelistingStart
  | delegateWhitelistingEnd (error : Option String)
  | approvalStart
  | approvalEnd (error : Option String)
  deriving DecidableEq, Repr

/-- The driver loop of `manage` (user-position.ts:277-312), one iteration per
yielded step, paired with its action's outcome: emit the matching start
callback (whitelist-start for whitelist, approval-start for approve and
permit, none for manage); await the action — if it rejects the loop exits
and the error propagates; if it resolves to a transaction, await its
confirmation (a rejection again propagates) and then invoke the matching end
callback with no argument; if it resolves to a signature, store it and
continue without invoking any end callback. Returns the emitted callback
events in order and the error that escaped the run, if any. -/
def manageDriverRun : List (ManageStepName × ActionOutcome) →
    List DriverEvent × Option String
  | [] => ([], none)
  | (name, outcome) :: rest =>
    let startEvents : List DriverEvent :=
      match name with
      | .whitelist => [.delegateWhitelistingStart]
      | .manage => []
      | _ => [.approvalStart]
    match outcome with
    | .actionRejected e => (startEvents, some e)
    | .txWaitFailed e => (startEvents, some e)
    | .txConfirmed =>
      let endEvents : List DriverEvent :=
        match name with
        | .whitelist => [.delegateWhitelistingEnd none]
        | .manage => []
        | _ => [.approvalEnd none]
      let next := manageDriverRun rest
      (startEvents ++ endEvents ++ next.1, next.2)
    | .signature _ =>
      let next := manageDriverRun rest
      (startEvents ++ next.1, next.2)

lemma authStage_shape (tok : Token) (amt : Dec) (sp : String) (n : Nat)
    (flag canP : Bool) (cached : Option ERC20PermitSignatureStruct) (g : GenState)
    (hc : flag = true → canP = true → cached = none) :
    (flag = false
      ∧ (if flag then getApproveOrPermitStep tok amt sp n canP cached g
          else (g, Except.ok createEmptyPermitSignature))
        = (g, Except.ok createEmptyPermitSignature))
    ∨ (flag = true ∧ canP = false
      ∧ (if flag then getApproveOrPermitStep tok amt sp n canP cached g
          else (g, Except.ok createEmptyPermitSignature))
        = (⟨g.steps ++ [⟨.approve tok, g.counter, n, .approveTx tok sp amt⟩],
            g.counter + 1, g.resumes.tail⟩,
           Except.ok createEmptyPermitSignature))
    ∨ (∃ sig, flag = true ∧ canP = true ∧ g.resumes.head?.join = some sig
      ∧ (if flag then getApproveOrPermitStep tok amt sp n canP cached g
          else (g, Except.ok createEmptyPermitSignature))
        = (⟨g.steps ++ [⟨.permit tok, g.counter, n, .signPermit tok sp amt⟩],
            g.counter + 1, g.resumes.tail⟩,
           Except.ok sig))
    ∨ (flag = true ∧ canP = true ∧ g.resumes.head?.join = none
      ∧ (if flag then getApproveOrPermitStep tok amt sp n canP cached g
          else (g, Except.ok createEmptyPermitSignature))
        = (⟨g.steps ++ [⟨.permit tok, g.counter, n, .signPermit tok sp amt⟩],
            g.counter + 1, g.resumes.tail⟩,
           Except.error (.permitSignatureRequired tok))) := by
  cases flag with
  | false => exact Or.inl ⟨rfl, rfl⟩
  | true =>
    cases canP with
    | false =>
      refine Or.inr (Or.inl ⟨rfl, rfl, ?_⟩)
      simp [getApproveOrPermitStep, getApproveTokenStep, GenState.emit]
    | true =>
      have hcn : cached = none := hc rfl rfl
      subst hcn
      cases hinj : g.resumes.head?.join with
      | some sig =>
        refine Or.inr (Or.inr (Or.inl ⟨sig, rfl, rfl, rfl, ?_⟩))
        simp only [getApproveOrPermitStep, getSignTokenPermitStep, GenState.emit, hinj]
        simp
      | none =>
        refine Or.inr (Or.inr (Or.inr ⟨rfl, rfl, rfl, ?_⟩))
        simp only [getApproveOrPermitStep, getSignTokenPermitStep, GenState.emit, hinj]
        simp

lemma collAuthStepNumber_eq (inp : ManageStepsInputs) (st : ChainState) (ct : Token) :
    collAuthStepNumber inp st ct = (wPart inp st ct).length + 1 := by
  unfold collAuthStepNumber wPart
  split <;> rfl

lemma rAuthStepNumber_eq (inp : ManageStepsInputs) (st : ChainState) (ct : Token) :
    rAuthStepNumber inp st ct
      = (wPart inp st ct).length + (cPart inp st ct).length + 1 := by
  unfold rAuthStepNumber cPart
  rw [collAuthStepNumber_eq]
  split <;> simp

lemma nsteps_flagR_false (inp : ManageStepsInputs) (st : ChainState) (ct : Token)
    (hf : rTokenApprovalStepNeeded inp st ct = false) :
    numberOfManageSteps inp st ct
      = (wPart inp st ct).length + (cPart inp st ct).length + 1 := by
  cases hW : whitelistingStepNeeded inp st ct <;>
    cases hC : collateralApprovalStepNeeded inp st ct <;>
      simp [numberOfManageSteps, neededOptionalStepCount, wPart, cPart, hW, hC, hf]

lemma nsteps_flagR_true (inp : ManageStepsInputs) (st : ChainState) (ct : Token)
    (hf : rTokenApprovalStepNeeded inp st ct = true) :
    numberOfManageSteps inp st ct
      = (wPart inp st ct).length + (cPart inp st ct).length + 1 + 1 := by
  cases hW : whitelistingStepNeeded inp st ct <;>
    cases hC : collateralApprovalStepNeeded inp st ct <;>
      simp [numberOfManageSteps, neededOptionalStepCount, wPart, cPart, hW, hC, hf]

lemma numberOfManageSteps_as_lengths (inp : ManageStepsInputs) (st : ChainState)
    (ct : Token) :
    numberOfManageSteps inp st ct
      = (wPart inp st ct).length + (cPart inp st ct).length
        + (rPart inp st ct).length + 1 := by
  cases hW : whitelistingStepNeeded inp st ct <;>
    cases hC : collateralApprovalStepNeeded inp st ct <;>
      cases hR : rTokenApprovalStepNeeded inp st ct <;>
        simp [numberOfManageSteps, neededOptionalStepCount, wPart, cPart, rPart, hW, hC, hR]

lemma rPermitSig_none_of_needed (inp : ManageStepsInputs) (st : ChainState) (ct : Token)
    (h : rTokenApprovalStepNeeded inp st ct = true) (hp : canUsePermit inp st = true) :
    inp.rPermitSignature = none := by
  unfold rTokenApprovalStepNeeded at h
  rw [hp] at h
  simp at h
  exact h.2

lemma collPermitSig_none_of_needed (inp : ManageStepsInputs) (st : ChainState) (ct : Token)
    (h : collateralApprovalStepNeeded inp st ct = true)
    (hp : canCollateralTokenUsePermit inp st ct = true) :
    inp.collateralPermitSignature = none := by
  unfold collateralApprovalStepNeeded at h
  rw [hp] at h
  simp at h
  exact h.2

lemma manageAfterCollateralStage_spec (inp : ManageStepsInputs) (st : ChainState)
    (ct : Token) (resumes : List (Option ERC20PermitSignatureStruct))
    (sigC : ERC20PermitSignatureStruct)
    (hcinj : collateralApprovalStepNeeded inp st ct = true →
        canCollateralTokenUsePermit inp st ct = true →
        collInjected inp st ct resumes ≠ none) :
    ((∃ sig, manageAfterCollateralStage inp st ct sigC
        ⟨wPart inp st ct ++ cPart inp st ct,
          (wPart inp st ct).length + (cPart inp st ct).length + 1,
          resumesAfterWC inp st ct resumes⟩
        = (wPart inp st ct ++ cPart inp st ct ++ rPart inp st ct
            ++ [expectedManageStep inp st ct sig], none))
      ∧ routeSupported inp ct = true
      ∧ (collateralApprovalStepNeeded inp st ct = true →
          canCollateralTokenUsePermit inp st ct = true →
          collInjected inp st ct resumes ≠ none)
      ∧ (rTokenApprovalStepNeeded inp st ct = true → canUsePermit inp st = true →
          rInjected inp st ct resumes ≠ none))
    ∨ (manageAfterCollateralStage inp st ct sigC
        ⟨wPart inp st ct ++ cPart inp st ct,
          (wPart inp st ct).length + (cPart inp st ct).length + 1,
          resumesAfterWC inp st ct resumes⟩
        = (wPart inp st ct ++ [expectedCollateralAuthStep inp st ct],
           some (.permitSignatureRequired ct))
      ∧ collateralApprovalStepNeeded inp st ct = true
      ∧ canCollateralTokenUsePermit inp st ct = true
      ∧ collInjected inp st ct resumes = none)
    ∨ (manageAfterCollateralStage inp st ct sigC
        ⟨wPart inp st ct ++ cPart inp st ct,
          (wPart inp st ct).length + (cPart inp st ct).length + 1,
          resumesAfterWC inp st ct resumes⟩
        = (wPart inp st ct ++ cPart inp st ct ++ [expectedRTokenAuthStep inp st ct],
           some (.permitSignatureRequired .R))
      ∧ rTokenApprovalStepNeeded inp st ct = true
      ∧ canUsePermit inp st = true
      ∧ rInjected inp st ct resumes = none
      ∧ (collateralApprovalStepNeeded inp st ct = true →
          canCollateralTokenUsePermit inp st ct = true →
          collInjected inp st ct resumes ≠ none))
    ∨ (manageAfterCollateralStage inp st ct sigC
        ⟨wPart inp st ct ++ cPart inp st ct,
          (wPart inp st ct).length + (cPart inp st ct).length + 1,
          resumesAfterWC inp st ct resumes⟩
        = (wPart inp st ct ++ cPart inp st ct ++ rPart inp st ct,
           some (.unsupportedCollateralToken inp.underlyingCollateralToken ct))
      ∧ routeSupported inp ct = false
      ∧ (collateralApprovalStepNeeded inp st ct = true →
          canCollateralTokenUsePermit inp st ct = true →
          collInjected inp st ct resumes ≠ none)
      ∧ (rTokenApprovalStepNeeded inp st ct = true → canUsePermit inp st = true →
          rInjected inp st ct resumes ≠ none)) := by
  have hrC : rTokenApprovalStepNeeded inp st ct = true → canUsePermit inp st = true →
      inp.rPermitSignature = none := rPermitSig_none_of_needed inp st ct
  unfold manageAfterCollateralStage
  rcases authStage_shape .R (|inp.debtChange|) (posMgrAddr inp st ct)
      (numberOfManageSteps inp st ct) (rTokenApprovalStepNeeded inp st ct)
      (canUsePermit inp st) inp.rPermitSignature
      ⟨wPart inp st ct ++ cPart inp st ct,
        (wPart inp st ct).length + (cPart inp st ct).length + 1,
        resumesAfterWC inp st ct resumes⟩ hrC with
    ⟨hf, he⟩ | ⟨hf, hp, he⟩ | ⟨sig, hf, hp, hinjR, he⟩ | ⟨hf, hp, hinjR, he⟩
  · -- R stage skipped
    rw [he]
    cases hU : isUnderlyingCollateralToken ct with
    | true =>
      refine Or.inl ⟨⟨sigC, ?_⟩, ?_, hcinj, ?_⟩
      · simp [manageTerminalStage, GenState.emit, hU, rPart, hf, expectedManageStep,
          expectedManageKind, nsteps_flagR_false inp st ct hf, List.append_assoc]
      · simp [routeSupported, hU]
      · simp [hf]
    | false =>
      cases hWr : (isWrappableCappedCollateralToken ct
          || (ct == .stETH && inp.underlyingCollateralToken == .wstETH)) with
      | true =>
        refine Or.inl ⟨⟨createEmptyPermitSignature, ?_⟩, ?_, hcinj, ?_⟩
        · simp [manageTerminalStage, GenState.emit, hU, hWr, rPart, hf, expectedManageStep,
            expectedManageKind, nsteps_flagR_false inp st ct hf, List.append_assoc]
        · simp [routeSupported, hU, hWr]
        · simp [hf]
      | false =>
        refine Or.inr (Or.inr (Or.inr ⟨?_, ?_, hcinj, ?_⟩))
        · simp [manageTerminalStage, hU, hWr, rPart, hf]
        · simp [routeSupported, hU, hWr]
        · simp [hf]
  · -- R stage is an approve step
    rw [he]
    cases hU : isUnderlyingCollateralToken ct with
    | true =>
      refine Or.inl ⟨⟨sigC, ?_⟩, ?_, hcinj, ?_⟩
      · simp [manageTerminalStage, GenState.emit, hU, rPart, hf, hp,
          expectedRTokenAuthStep, rAuthStepNumber_eq, expectedManageStep,
          expectedManageKind, nsteps_flagR_true inp st ct hf, List.append_assoc]
      · simp [routeSupported, hU]
      · simp [hp]
    | false =>
      cases hWr : (isWrappableCappedCollateralToken ct
          || (ct == .stETH && inp.underlyingCollateralToken == .wstETH)) with
      | true =>
        refine Or.inl ⟨⟨createEmptyPermitSignature, ?_⟩, ?_, hcinj, ?_⟩
        · simp [manageTerminalStage, GenState.emit, hU, hWr, rPart, hf, hp,
            expectedRTokenAuthStep, rAuthStepNumber_eq, expectedManageStep,
            expectedManageKind, nsteps_flagR_true inp st ct hf, List.append_assoc]
        · simp [routeSupported, hU, hWr]
        · simp [hp]
      | false =>
        refine Or.inr (Or.inr (Or.inr ⟨?_, ?_, hcinj, ?_⟩))
        · simp [manageTerminalStage, GenState.emit, hU, hWr, rPart, hf, hp,
            expectedRTokenAuthStep, rAuthStepNumber_eq, List.append_assoc]
        · simp [routeSupported, hU, hWr]
        · simp [hp]
  · -- R stage is a permit step, signature injected
    rw [he]
    have hinjR2 : rInjected inp st ct resumes = some sig := hinjR
    cases hU : isUnderlyingCollateralToken ct with
    | true =>
      refine Or.inl ⟨⟨sigC, ?_⟩, ?_, hcinj, ?_⟩
      · simp [manageTerminalStage, GenState.emit, hU, rPart, hf, hp,
          expectedRTokenAuthStep, rAuthStepNumber_eq, expectedManageStep,
          expectedManageKind, nsteps_flagR_true inp st ct hf, List.append_assoc]
      · simp [routeSupported, hU]
      · intro h1 h2
        simp [hinjR2]
    | false =>
      cases hWr : (isWrappableCappedCollateralToken ct
          || (ct == .stETH && inp.underlyingCollateralToken == .wstETH)) with
      | true =>
        refine Or.inl ⟨⟨sig, ?_⟩, ?_, hcinj, ?_⟩
        · simp [manageTerminalStage, GenState.emit, hU, hWr, rPart, hf, hp,
            expectedRTokenAuthStep, rAuthStepNumber_eq, expectedManageStep,
            expectedManageKind, nsteps_flagR_true inp st ct hf, List.append_assoc]
        · simp [routeSupported, hU, hWr]
        · intro h1 h2
          simp [hinjR2]
      | false =>
        refine Or.inr (Or.inr (Or.inr ⟨?_, ?_, hcinj, ?_⟩))
        · simp [manageTerminalStage, GenState.emit, hU, hWr, rPart, hf, hp,
            expectedRTokenAuthStep, rAuthStepNumber_eq, List.append_assoc]
        · simp [routeSupported, hU, hWr]
        · intro h1 h2
          simp [hinjR2]
  · -- R stage is a permit step, no signature injected
    rw [he]
    have hinjR2 : rInjected inp st ct resumes = none := hinjR
    refine Or.inr (Or.inr (Or.inl ⟨?_, hf, hp, hinjR2, hcinj⟩))
    simp [expectedRTokenAuthStep, hp, rAuthStepNumber_eq, List.append_assoc]

lemma getManageStepsWith_spec (inp : ManageStepsInputs) (st : ChainState) (ct : Token)
    (resumes : List (Option ERC20PermitSignatureStruct)) :
    ((∃ sig, getManageStepsWith inp st ct resumes
        = (wPart inp st ct ++ cPart inp st ct ++ rPart inp st ct
            ++ [expectedManageStep inp st ct sig], none))
      ∧ routeSupported inp ct = true
      ∧ (collateralApprovalStepNeeded inp st ct = true →
          canCollateralTokenUsePermit inp st ct = true →
          collInjected inp st ct resumes ≠ none)
      ∧ (rTokenApprovalStepNeeded inp st ct = true → canUsePermit inp st = true →
          rInjected inp st ct resumes ≠ none))
    ∨ (getManageStepsWith inp st ct resumes
        = (wPart inp st ct ++ [expectedCollateralAuthStep inp st ct],
           some (.permitSignatureRequired ct))
      ∧ collateralApprovalStepNeeded inp st ct = true
      ∧ canCollateralTokenUsePermit inp st ct = true
      ∧ collInjected inp st ct resumes = none)
    ∨ (getManageStepsWith inp st ct resumes
        = (wPart inp st ct ++ cPart inp st ct ++ [expectedRTokenAuthStep inp st ct],
           some (.permitSignatureRequired .R))
      ∧ rTokenApprovalStepNeeded inp st ct = true
      ∧ canUsePermit inp st = true
      ∧ rInjected inp st ct resumes = none
      ∧ (collateralApprovalStepNeeded inp st ct = true →
          canCollateralTokenUsePermit inp st ct = true →
          collInjected inp st ct resumes ≠ none))
    ∨ (getManageStepsWith inp st ct resumes
        = (wPart inp st ct ++ cPart inp st ct ++ rPart inp st ct,
           some (.unsupportedCollateralToken inp.underlyingCollateralToken ct))
      ∧ routeSupported inp ct = false
      ∧ (collateralApprovalStepNeeded inp st ct = true →
          canCollateralTokenUsePermit inp st ct = true →
          collInjected inp st ct resumes ≠ none)
      ∧ (rTokenApprovalStepNeeded inp st ct = true → canUsePermit inp st = true →
          rInjected inp st ct resumes ≠ none)) := by
  have hcC : collateralApprovalStepNeeded inp st ct = true →
      canCollateralTokenUsePermit inp st ct = true →
      inp.collateralPermitSignature = none := collPermitSig_none_of_needed inp st ct
  have hg1 : (if whitelistingStepNeeded inp st ct then
      getWhitelistStep (posMgrAddr inp st ct) (numberOfManageSteps inp st ct)
        { steps := [], counter := 1, resumes := resumes }
    else { steps := [], counter := 1, resumes := resumes })
      = (⟨wPart inp st ct, (wPart inp st ct).length + 1,
          resumesAfterW inp st ct resumes⟩ : GenState) := by
    cases hW : whitelistingStepNeeded inp st ct <;>
      simp [getWhitelistStep, GenState.emit, wPart, resumesAfterW, expectedWhitelistStep, hW]
  simp only [getManageStepsWith]
  rw [hg1]
  rcases authStage_shape ct inp.collateralChange (posMgrAddr inp st ct)
      (numberOfManageSteps inp st ct) (collateralApprovalStepNeeded inp st ct)
      (canCollateralTokenUsePermit inp st ct) inp.collateralPermitSignature
      ⟨wPart inp st ct, (wPart inp st ct).length + 1, resumesAfterW inp st ct resumes⟩
      hcC with
    ⟨hf, he⟩ | ⟨hf, hp, he⟩ | ⟨sig, hf, hp, hinjC, he⟩ | ⟨hf, hp, hinjC, he⟩
  · -- collateral stage skipped
    rw [he]
    have hg2 : (⟨wPart inp st ct, (wPart inp st ct).length + 1,
        resumesAfterW inp st ct resumes⟩ : GenState)
        = ⟨wPart inp st ct ++ cPart inp st ct,
            (wPart inp st ct).length + (cPart inp st ct).length + 1,
            resumesAfterWC inp st ct resumes⟩ := by
      simp [cPart, resumesAfterWC, hf]
    rw [hg2]
    exact manageAfterCollateralStage_spec inp st ct resumes createEmptyPermitSignature
      (by intro h1 h2; rw [hf] at h1; cases h1)
  · -- collateral stage is an approve step
    rw [he]
    have hg2 : (⟨wPart inp st ct
          ++ [⟨.approve ct, (wPart inp st ct).length + 1, numberOfManageSteps inp st ct,
                .approveTx ct (posMgrAddr inp st ct) inp.collateralChange⟩],
        (wPart inp st ct).length + 1 + 1,
        (resumesAfterW inp st ct resumes).tail⟩ : GenState)
        = ⟨wPart inp st ct ++ cPart inp st ct,
            (wPart inp st ct).length + (cPart inp st ct).length + 1,
            resumesAfterWC inp st ct resumes⟩ := by
      simp [cPart, resumesAfterWC, hf, expectedCollateralAuthStep, hp, collAuthStepNumber_eq]
    rw [hg2]
    exact manageAfterCollateralStage_spec inp st ct resumes createEmptyPermitSignature
      (by intro h1 h2; rw [hp] at h2; cases h2)
  · -- collateral stage is a permit step, signature injected
    rw [he]
    have hinjC2 : collInjected inp st ct resumes = some sig := hinjC
    have hg2 : (⟨wPart inp st ct
          ++ [⟨.permit ct, (wPart inp st ct).length + 1, numberOfManageSteps inp st ct,
                .signPermit ct (posMgrAddr inp st ct) inp.collateralChange⟩],
        (wPart inp st ct).length + 1 + 1,
        (resumesAfterW inp st ct resumes).tail⟩ : GenState)
        = ⟨wPart inp st ct ++ cPart inp st ct,
            (wPart inp st ct).length + (cPart inp st ct).length + 1,
            resumesAfterWC inp st ct resumes⟩ := by
      simp [cPart, resumesAfterWC, hf, expectedCollateralAuthStep, hp, collAuthStepNumber_eq]
    rw [hg2]
    exact manageAfterCollateralStage_spec inp st ct resumes sig
      (by intro h1 h2; simp [hinjC2])
  · -- collateral stage is a permit step, no signature injected
    rw [he]
    have hinjC2 : collInjected inp st ct resumes = none := hinjC
    refine Or.inr (Or.inl ⟨?_, hf, hp, hinjC2⟩)
    simp [expectedCollateralAuthStep, hp, collAuthStepNumber_eq]

lemma DEBT_CHANGE_TO_CLOSE_ne_zero : DEBT_CHANGE_TO_CLOSE ≠ 0 := by
  norm_num [DEBT_CHANGE_TO_CLOSE, MAX_DECIMAL]

lemma getManageSteps_cases (inp : ManageStepsInputs) (st : ChainState)
    (resumes : List (Option ERC20PermitSignatureStruct)) :
    (inp.collateralChange = 0 ∧ inp.debtChange = 0
      ∧ getManageSteps inp st resumes = ([], some .invalidIntent))
    ∨ (¬(inp.collateralChange = 0 ∧ inp.debtChange = 0)
      ∧ getManageSteps inp st resumes
          = getManageStepsWith inp st (effectiveCollateralToken inp) resumes) := by
  unfold getManageSteps
  cases hcond : (inp.collateralChange == 0 && !(inp.debtChange == DEBT_CHANGE_TO_CLOSE)
      && inp.debtChange == 0) with
  | true =>
    simp at hcond
    left
    refine ⟨hcond.1.1, hcond.2, ?_⟩
    simp_all
  | false =>
    right
    constructor
    · rintro ⟨h0, h1⟩
      rw [h0, h1] at hcond
      simp [DEBT_CHANGE_TO_CLOSE_ne_zero] at hcond
      exact DEBT_CHANGE_TO_CLOSE_ne_zero hcond.symm
    · simp [hcond]

lemma expectedCollateralAuthStep_stepNumber (inp : ManageStepsInputs) (st : ChainState)
    (ct : Token) :
    (expectedCollateralAuthStep inp st ct).stepNumber = collAuthStepNumber inp st ct := by
  unfold expectedCollateralAuthStep
  split <;> rfl

lemma expectedCollateralAuthStep_numberOfSteps (inp : ManageStepsInputs) (st : ChainState)
    (ct : Token) :
    (expectedCollateralAuthStep inp st ct).numberOfSteps = numberOfManageSteps inp st ct := by
  unfold expectedCollateralAuthStep
  split <;> rfl

lemma expectedCollateralAuthStep_type_ne_manage (inp : ManageStepsInputs) (st : ChainState)
    (ct : Token) : (expectedCollateralAuthStep inp st ct).type ≠ ManageStepName.manage := by
  unfold expectedCollateralAuthStep
  split <;> simp

lemma expectedRTokenAuthStep_stepNumber (inp : ManageStepsInputs) (st : ChainState)
    (ct : Token) :
    (expectedRTokenAuthStep inp st ct).stepNumber = rAuthStepNumber inp st ct := by
  unfold expectedRTokenAuthStep
  split <;> rfl

lemma expectedRTokenAuthStep_numberOfSteps (inp : ManageStepsInputs) (st : ChainState)
    (ct : Token) :
    (expectedRTokenAuthStep inp st ct).numberOfSteps = numberOfManageSteps inp st ct := by
  unfold expectedRTokenAuthStep
  split <;> rfl

lemma expectedRTokenAuthStep_type_ne_manage (inp : ManageStepsInputs) (st : ChainState)
    (ct : Token) : (expectedRTokenAuthStep inp st ct).type ≠ ManageStepName.manage := by
  unfold expectedRTokenAuthStep
  split <;> simp

lemma mem_wPart_type (inp : ManageStepsInputs) (st : ChainState) (ct : Token)
    (s : ManagePositionStep) (h : s ∈ wPart inp st ct) :
    s.type = ManageStepName.whitelist := by
  unfold wPart at h
  split at h
  · rw [List.mem_singleton] at h
    rw [h]
    rfl
  · simp at h

lemma mem_wPart_numberOfSteps (inp : ManageStepsInputs) (st : ChainState) (ct : Token)
    (s : ManagePositionStep) (h : s ∈ wPart inp st ct) :
    s.numberOfSteps = numberOfManageSteps inp st ct := by
  unfold wPart at h
  split at h
  · rw [List.mem_singleton] at h
    rw [h]
    rfl
  · simp at h

lemma mem_cPart_type_ne_manage (inp : ManageStepsInputs) (st : ChainState) (ct : Token)
    (s : ManagePositionStep) (h : s ∈ cPart inp st ct) :
    s.type ≠ ManageStepName.manage := by
  unfold cPart at h
  split at h
  · rw [List.mem_singleton] at h
    rw [h]
    exact expectedCollateralAuthStep_type_ne_manage inp st ct
  · simp at h

lemma mem_cPart_numberOfSteps (inp : ManageStepsInputs) (st : ChainState) (ct : Token)
    (s : ManagePositionStep) (h : s ∈ cPart inp st ct) :
    s.numberOfSteps = numberOfManageSteps inp st ct := by
  unfold cPart at h
  split at h
  · rw [List.mem_singleton] at h
    rw [h]
    exact expectedCollateralAuthStep_numberOfSteps inp st ct
  · simp at h

lemma mem_rPart_type_ne_manage (inp : ManageStepsInputs) (st : ChainState) (ct : Token)
    (s : ManagePositionStep) (h : s ∈ rPart inp st ct) :
    s.type ≠ ManageStepName.manage := by
  unfold rPart at h
  split at h
  · rw [List.mem_singleton] at h
    rw [h]
    exact expectedRTokenAuthStep_type_ne_manage inp st ct
  · simp at h

lemma mem_rPart_numberOfSteps (inp : ManageStepsInputs) (st : ChainState) (ct : Token)
    (s : ManagePositionStep) (h : s ∈ rPart inp st ct) :
    s.numberOfSteps = numberOfManageSteps inp st ct := by
  unfold rPart at h
  split at h
  · rw [List.mem_singleton] at h
    rw [h]
    exact expectedRTokenAuthStep_numberOfSteps inp st ct
  · simp at h

lemma range'_one : List.range' 1 1 = [1] := rfl

lemma range'_two : List.range' 1 2 = [1, 2] := rfl

lemma range'_three : List.range' 1 3 = [1, 2, 3] := rfl

lemma range'_four : List.range' 1 4 = [1, 2, 3, 4] := rfl

/-- C1: whenever a `getManageSteps` run completes (yields its terminal step),
the plan's total step count equals the number of needed optional steps plus
one, every yielded step carries that same fixed `numberOfSteps`, the
`stepNumber` values are contiguous starting at 1, and the terminal `manage`
step is always present, always last, and the only `manage` step. -/
theorem getManageSteps_plan_invariants (inp : ManageStepsInputs) (st : ChainState)
    (resumes : List (Option ERC20PermitSignatureStruct))
    (h : (getManageSteps inp st resumes).2 = none) :
    (getManageSteps inp st resumes).1.length
        = neededOptionalStepCount inp st (effectiveCollateralToken inp) + 1
    ∧ (∀ s ∈ (getManageSteps inp st resumes).1,
        s.numberOfSteps
          = neededOptionalStepCount inp st (effectiveCollateralToken inp) + 1)
    ∧ (getManageSteps inp st resumes).1.map (fun s => s.stepNumber)
        = List.range' 1 (getManageSteps inp st resumes).1.length
    ∧ (∃ pre mng, (getManageSteps inp st resumes).1 = pre ++ [mng]
        ∧ mng.type = ManageStepName.manage
        ∧ ∀ s ∈ pre, s.type ≠ ManageStepName.manage) := by
  rcases getManageSteps_cases inp st resumes with ⟨h0, h1, heq⟩ | ⟨hne, heq⟩
  · rw [heq] at h
    simp at h
  rw [heq] at h ⊢
  rcases getManageStepsWith_spec inp st (effectiveCollateralToken inp) resumes with
    ⟨⟨sig, hs⟩, hroute, hc1, hc2⟩ | ⟨hs, h2, h3, h4⟩ | ⟨hs, h2, h3, h4, h5⟩ |
    ⟨hs, h2, h3, h4⟩
  · rw [hs]
    refine ⟨?_, ?_, ?_, ?_⟩
    · show _ = numberOfManageSteps inp st (effectiveCollateralToken inp)
      rw [numberOfManageSteps_as_lengths]
      simp
      omega
    · intro s hmem
      show s.numberOfSteps = numberOfManageSteps inp st (effectiveCollateralToken inp)
      simp only [List.mem_append, List.mem_singleton] at hmem
      rcases hmem with ((hw | hc) | hr) | hm
      · exact mem_wPart_numberOfSteps inp st _ s hw
      · exact mem_cPart_numberOfSteps inp st _ s hc
      · exact mem_rPart_numberOfSteps inp st _ s hr
      · rw [hm]
        rfl
    · cases hW : whitelistingStepNeeded inp st (effectiveCollateralToken inp) <;>
        cases hC : collateralApprovalStepNeeded inp st (effectiveCollateralToken inp) <;>
          cases hR : rTokenApprovalStepNeeded inp st (effectiveCollateralToken inp) <;>
            simp [wPart, cPart, rPart, hW, hC, hR, expectedWhitelistStep,
              expectedManageStep, expectedCollateralAuthStep_stepNumber,
              expectedRTokenAuthStep_stepNumber, collAuthStepNumber, rAuthStepNumber,
              numberOfManageSteps, neededOptionalStepCount, range'_one, range'_two,
              range'_three, range'_four]
    · refine ⟨wPart inp st (effectiveCollateralToken inp)
          ++ cPart inp st (effectiveCollateralToken inp)
          ++ rPart inp st (effectiveCollateralToken inp),
        expectedManageStep inp st (effectiveCollateralToken inp) sig, rfl, rfl, ?_⟩
      intro s hmem
      simp only [List.mem_append] at hmem
      rcases hmem with (hw | hc) | hr
      · rw [mem_wPart_type inp st _ s hw]
        simp
      · exact mem_cPart_type_ne_manage inp st _ s hc
      · exact mem_rPart_type_ne_manage inp st _ s hr
  · rw [hs] at h
    simp at h
  · rw [hs] at h
    simp at h
  · rw [hs] at h
    simp at h

theorem getManageSteps_plan_invariants_witness :
    (getManageSteps wInpPlain wState []).2 = none
    ∧ ((getManageSteps wInpPlain wState []).1.length
        = neededOptionalStepCount wInpPlain wState (effectiveCollateralToken wInpPlain) + 1
      ∧ (∀ s ∈ (getManageSteps wInpPlain wState []).1,
          s.numberOfSteps
            = neededOptionalStepCount wInpPlain wState (effectiveCollateralToken wInpPlain)
              + 1)
      ∧ (getManageSteps wInpPlain wState []).1.map (fun s => s.stepNumber)
          = List.range' 1 (getManageSteps wInpPlain wState []).1.length
      ∧ (∃ pre mng, (getManageSteps wInpPlain wState []).1 = pre ++ [mng]
          ∧ mng.type = ManageStepName.manage
          ∧ ∀ s ∈ pre, s.type ≠ ManageStepName.manage)) :=
  ⟨rfl, getManageSteps_plan_invariants wInpPlain wState [] rfl⟩

lemma whitelist_not_needed_of_prefetch (inp : ManageStepsInputs) (st : ChainState)
    (ct : Token)
    (hw : inp.isDelegateWhitelisted.getD st.fetchedIsDelegateWhitelisted = true) :
    whitelistingStepNeeded inp st ct = false := by
  unfold whitelistingStepNeeded resolvedIsDelegateWhitelisted
  cases hq : whitelistingRequired inp ct
  · simp
  · simp [hq, hw]

lemma collateral_not_needed_of_allowance (inp : ManageStepsInputs) (st : ChainState)
    (ct : Token)
    (hc : inp.collateralChange
      ≤ inp.collateralTokenAllowance.getD st.fetchedCollateralTokenAllowance) :
    collateralApprovalStepNeeded inp st ct = false := by
  unfold collateralApprovalStepNeeded resolvedCollateralTokenAllowance
  cases hq : collateralTokenAllowanceRequired inp st ct
  · simp
  · have hng : ¬(inp.collateralChange
        > inp.collateralTokenAllowance.getD st.fetchedCollateralTokenAllowance) :=
      not_lt.mpr hc
    simp [hq, hng]

lemma rToken_not_needed_of_allowance (inp : ManageStepsInputs) (st : ChainState)
    (ct : Token)
    (hr : |inp.debtChange| ≤ inp.rTokenAllowance.getD st.fetchedRTokenAllowance) :
    rTokenApprovalStepNeeded inp st ct = false := by
  unfold rTokenApprovalStepNeeded resolvedRTokenAllowance
  cases hq : rTokenAllowanceRequired inp ct
  · simp
  · have hng : ¬(|inp.debtChange| > inp.rTokenAllowance.getD st.fetchedRTokenAllowance) :=
      not_lt.mpr hr
    simp [hq, hng]

/-- C2: when the delegate is already whitelisted and both the collateral-token
allowance and the R-token allowance are at least the requested amounts, a
completing `getManageSteps` run produces exactly one step, the terminal
`manage` step, with `numberOfSteps = 1` and `stepNumber = 1`. -/
theorem getManageSteps_satisfied_auth_single_manage_step (inp : ManageStepsInputs)
    (st : ChainState) (resumes : List (Option ERC20PermitSignatureStruct))
    (hw : inp.isDelegateWhitelisted.getD st.fetchedIsDelegateWhitelisted = true)
    (hc : inp.collateralChange
      ≤ inp.collateralTokenAllowance.getD st.fetchedCollateralTokenAllowance)
    (hr : |inp.debtChange| ≤ inp.rTokenAllowance.getD st.fetchedRTokenAllowance)
    (h : (getManageSteps inp st resumes).2 = none) :
    ∃ s, (getManageSteps inp st resumes).1 = [s]
      ∧ s.type = ManageStepName.manage ∧ s.numberOfSteps = 1 ∧ s.stepNumber = 1 := by
  have hWf := whitelist_not_needed_of_prefetch inp st (effectiveCollateralToken inp) hw
  have hCf := collateral_not_needed_of_allowance inp st (effectiveCollateralToken inp) hc
  have hRf := rToken_not_needed_of_allowance inp st (effectiveCollateralToken inp) hr
  rcases getManageSteps_cases inp st resumes with ⟨h0, h1, heq⟩ | ⟨hne, heq⟩
  · rw [heq] at h
    simp at h
  rw [heq] at h ⊢
  rcases getManageStepsWith_spec inp st (effectiveCollateralToken inp) resumes with
    ⟨⟨sig, hs⟩, hroute, hc1, hc2⟩ | ⟨hs, h2, h3, h4⟩ | ⟨hs, h2, h3, h4, h5⟩ |
    ⟨hs, h2, h3, h4⟩
  · refine ⟨expectedManageStep inp st (effectiveCollateralToken inp) sig, ?_, rfl, ?_, ?_⟩
    · rw [hs]
      simp [wPart, cPart, rPart, hWf, hCf, hRf]
    · show numberOfManageSteps inp st (effectiveCollateralToken inp) = 1
      simp [numberOfManageSteps, neededOptionalStepCount, hWf, hCf, hRf]
    · show numberOfManageSteps inp st (effectiveCollateralToken inp) = 1
      simp [numberOfManageSteps, neededOptionalStepCount, hWf, hCf, hRf]
  · rw [h2] at hCf
    cases hCf
  · rw [h2] at hRf
    cases hRf
  · rw [hs] at h
    simp at h

theorem getManageSteps_satisfied_auth_single_manage_step_witness :
    (wInpPlain.isDelegateWhitelisted.getD wState.fetchedIsDelegateWhitelisted = true
      ∧ wInpPlain.collateralChange
          ≤ wInpPlain.collateralTokenAllowance.getD wState.fetchedCollateralTokenAllowance
      ∧ |wInpPlain.debtChange| ≤ wInpPlain.rTokenAllowance.getD wState.fetchedRTokenAllowance
      ∧ (getManageSteps wInpPlain wState []).2 = none)
    ∧ (∃ s, (getManageSteps wInpPlain wState []).1 = [s]
        ∧ s.type = ManageStepName.manage ∧ s.numberOfSteps = 1 ∧ s.stepNumber = 1) :=
  ⟨⟨rfl, by decide, by decide, rfl⟩,
    getManageSteps_satisfied_auth_single_manage_step wInpPlain wState [] rfl (by decide)
      (by decide) rfl⟩

/-- C3: when all three optional steps are needed, a completing run yields
exactly the order whitelist, collateral Approve/Permit, R-token
Approve/Permit, `manage`, with `stepNumber` 1 through 4 and `numberOfSteps`
4 on every step. The plan is a pure function of the already-resolved
authorization state, so the order cannot depend on the evaluation order of
the asynchronous fetches. -/
theorem getManageSteps_all_three_steps_order (inp : ManageStepsInputs)
    (st : ChainState) (resumes : List (Option ERC20PermitSignatureStruct))
    (hW : whitelistingStepNeeded inp st (effectiveCollateralToken inp) = true)
    (hC : collateralApprovalStepNeeded inp st (effectiveCollateralToken inp) = true)
    (hR : rTokenApprovalStepNeeded inp st (effectiveCollateralToken inp) = true)
    (h : (getManageSteps inp st resumes).2 = none) :
    ∃ s1 s2 s3 s4, (getManageSteps inp st resumes).1 = [s1, s2, s3, s4]
      ∧ s1.type = ManageStepName.whitelist
      ∧ (s2.type = ManageStepName.permit (effectiveCollateralToken inp)
          ∨ s2.type = ManageStepName.approve (effectiveCollateralToken inp))
      ∧ (s3.type = ManageStepName.permit Token.R
          ∨ s3.type = ManageStepName.approve Token.R)
      ∧ s4.type = ManageStepName.manage
      ∧ s1.stepNumber = 1 ∧ s2.stepNumber = 2 ∧ s3.stepNumber = 3 ∧ s4.stepNumber = 4
      ∧ s1.numberOfSteps = 4 ∧ s2.numberOfSteps = 4 ∧ s3.numberOfSteps = 4
      ∧ s4.numberOfSteps = 4 := by
  have hn : numberOfManageSteps inp st (effectiveCollateralToken inp) = 4 := by
    simp [numberOfManageSteps, neededOptionalStepCount, hW, hC, hR]
  rcases getManageSteps_cases inp st resumes with ⟨h0, h1, heq⟩ | ⟨hne, heq⟩
  · rw [heq] at h
    simp at h
  rw [heq] at h ⊢
  rcases getManageStepsWith_spec inp st (effectiveCollateralToken inp) resumes with
    ⟨⟨sig, hs⟩, hroute, hc1, hc2⟩ | ⟨hs, h2, h3, h4⟩ | ⟨hs, h2, h3, h4, h5⟩ |
    ⟨hs, h2, h3, h4⟩
  · refine ⟨expectedWhitelistStep inp st (effectiveCollateralToken inp),
      expectedCollateralAuthStep inp st (effectiveCollateralToken inp),
      expectedRTokenAuthStep inp st (effectiveCollateralToken inp),
      expectedManageStep inp st (effectiveCollateralToken inp) sig,
      ?_, rfl, ?_, ?_, rfl, rfl, ?_, ?_, ?_, ?_, ?_, ?_, ?_⟩
    · rw [hs]
      simp [wPart, cPart, rPart, hW, hC, hR]
    · unfold expectedCollateralAuthStep
      split
      · exact Or.inl rfl
      · exact Or.inr rfl
    · unfold expectedRTokenAuthStep
      split
      · exact Or.inl rfl
      · exact Or.inr rfl
    · rw [expectedCollateralAuthStep_stepNumber]
      simp [collAuthStepNumber, hW]
    · rw [expectedRTokenAuthStep_stepNumber]
      simp [rAuthStepNumber, collAuthStepNumber, hW, hC]
    · show numberOfManageSteps inp st (effectiveCollateralToken inp) = 4
      exact hn
    · show numberOfManageSteps inp st (effectiveCollateralToken inp) = 4
      exact hn
    · rw [expectedCollateralAuthStep_numberOfSteps]
      exact hn
    · rw [expectedRTokenAuthStep_numberOfSteps]
      exact hn
    · show numberOfManageSteps inp st (effectiveCollateralToken inp) = 4
      exact hn
  · rw [hs] at h
    simp at h
  · rw [hs] at h
    simp at h
  · rw [hs] at h
    simp at h

theorem getManageSteps_all_three_steps_order_witness :
    (whitelistingStepNeeded wInpAllSteps wState (effectiveCollateralToken wInpAllSteps) = true
      ∧ collateralApprovalStepNeeded wInpAllSteps wState
          (effectiveCollateralToken wInpAllSteps) = true
      ∧ rTokenApprovalStepNeeded wInpAllSteps wState
          (effectiveCollateralToken wInpAllSteps) = true
      ∧ (getManageSteps wInpAllSteps wState []).2 = none)
    ∧ (∃ s1 s2 s3 s4, (getManageSteps wInpAllSteps wState []).1 = [s1, s2, s3, s4]
      ∧ s1.type = ManageStepName.whitelist
      ∧ (s2.type = ManageStepName.permit (effectiveCollateralToken wInpAllSteps)
          ∨ s2.type = ManageStepName.approve (effectiveCollateralToken wInpAllSteps))
      ∧ (s3.type = ManageStepName.permit Token.R
          ∨ s3.type = ManageStepName.approve Token.R)
      ∧ s4.type = ManageStepName.manage
      ∧ s1.stepNumber = 1 ∧ s2.stepNumber = 2 ∧ s3.stepNumber = 3 ∧ s4.stepNumber = 4
      ∧ s1.numberOfSteps = 4 ∧ s2.numberOfSteps = 4 ∧ s3.numberOfSteps = 4
      ∧ s4.numberOfSteps = 4) :=
  ⟨⟨rfl, rfl, rfl, rfl⟩,
    getManageSteps_all_three_steps_order wInpAllSteps wState [] rfl rfl rfl rfl⟩

/-- C10: for a debt-only adjustment (collateral change zero, debt change
neither zero nor the close sentinel), the planner replaces any caller-supplied
collateral token by the position's underlying collateral token, so the plan
holds no whitelist step and its terminal step routes through the base
position manager. -/
theorem getManageSteps_debt_only_uses_underlying (inp : ManageStepsInputs)
    (st : ChainState) (resumes : List (Option ERC20PermitSignatureStruct))
    (h0 : inp.collateralChange = 0)
    (h1 : inp.debtChange ≠ 0)
    (h2 : inp.debtChange ≠ DEBT_CHANGE_TO_CLOSE)
    (hU : isUnderlyingCollateralToken inp.underlyingCollateralToken = true) :
    effectiveCollateralToken inp = inp.underlyingCollateralToken
    ∧ (∀ s ∈ (getManageSteps inp st resumes).1, s.type ≠ ManageStepName.whitelist)
    ∧ (∃ sig, getManageSteps inp st resumes
        = ([expectedManageStep inp st inp.underlyingCollateralToken sig], none))
    ∧ expectedManageKind inp inp.underlyingCollateralToken = PositionManagerKind.base := by
  have hect : effectiveCollateralToken inp = inp.underlyingCollateralToken := by
    unfold effectiveCollateralToken
    simp [h0, h2]
  have hWf : whitelistingStepNeeded inp st (effectiveCollateralToken inp) = false := by
    unfold whitelistingStepNeeded whitelistingRequired isUnderlyingTokenForPosition
    rw [hect]
    simp
  have hCf : collateralApprovalStepNeeded inp st (effectiveCollateralToken inp) = false := by
    unfold collateralApprovalStepNeeded collateralTokenAllowanceRequired
    simp [h0]
  have hRf : rTokenApprovalStepNeeded inp st (effectiveCollateralToken inp) = false := by
    unfold rTokenApprovalStepNeeded rTokenAllowanceRequired isUnderlyingTokenForPosition
    rw [hect]
    simp
  have hroute : routeSupported inp (effectiveCollateralToken inp) = true := by
    unfold routeSupported
    rw [hect]
    simp [hU]
  rcases getManageSteps_cases inp st resumes with ⟨ha, hb, heq⟩ | ⟨hne, heq⟩
  · exact absurd hb h1
  rw [heq]
  rcases getManageStepsWith_spec inp st (effectiveCollateralToken inp) resumes with
    ⟨⟨sig, hs⟩, hrt, hc1, hc2⟩ | ⟨hs, h2x, h3, h4⟩ | ⟨hs, h2x, h3, h4, h5⟩ |
    ⟨hs, hrt, h3, h4⟩
  · refine ⟨hect, ?_, ⟨sig, ?_⟩, ?_⟩
    · intro s hmem
      rw [hs] at hmem
      simp [wPart, cPart, rPart, hWf, hCf, hRf] at hmem
      rw [hmem]
      show ManageStepName.manage ≠ ManageStepName.whitelist
      simp
    · rw [hs]
      rw [← hect]
      simp [wPart, cPart, rPart, hWf, hCf, hRf]
    · unfold expectedManageKind
      simp [hU]
  · rw [h2x] at hCf
    cases hCf
  · rw [h2x] at hRf
    cases hRf
  · rw [hroute] at hrt
    cases hrt

lemma getManageSteps_no_invalidIntent_of_ne (inp : ManageStepsInputs) (st : ChainState)
    (resumes : List (Option ERC20PermitSignatureStruct))
    (hne : ¬(inp.collateralChange = 0 ∧ inp.debtChange = 0)) :
    (getManageSteps inp st resumes).2 ≠ some ManageStepsError.invalidIntent := by
  rcases getManageSteps_cases inp st resumes with ⟨h0, h1, heq⟩ | ⟨hne2, heq⟩
  · exact absurd ⟨h0, h1⟩ hne
  rw [heq]
  rcases getManageStepsWith_spec inp st (effectiveCollateralToken inp) resumes with
    ⟨⟨sig, hs⟩, _, _, _⟩ | ⟨hs, _, _, _⟩ | ⟨hs, _, _, _, _⟩ | ⟨hs, _, _, _⟩ <;>
      rw [hs] <;> simp

/-- C4: `getManageSteps` throws the invalid-intent error exactly when the
collateral change and the debt change are both zero; the error is thrown
before any step is yielded; and the close sentinel is nonzero, so the close
intent (collateral change zero, debt change equal to the sentinel) never
raises this error. -/
theorem getManageSteps_invalidIntent_iff (inp : ManageStepsInputs) (st : ChainState)
    (resumes : List (Option ERC20PermitSignatureStruct)) :
    ((getManageSteps inp st resumes).2 = some ManageStepsError.invalidIntent
      ↔ inp.collateralChange = 0 ∧ inp.debtChange = 0)
    ∧ ((getManageSteps inp st resumes).2 = some ManageStepsError.invalidIntent →
        (getManageSteps inp st resumes).1 = [])
    ∧ DEBT_CHANGE_TO_CLOSE ≠ 0 := by
  by_cases hz : inp.collateralChange = 0 ∧ inp.debtChange = 0
  · rcases getManageSteps_cases inp st resumes with ⟨h0, h1, heq⟩ | ⟨hne, heq⟩
    · rw [heq]
      refine ⟨?_, ?_, DEBT_CHANGE_TO_CLOSE_ne_zero⟩
      · simp [h0, h1]
      · intro _
        rfl
    · exact absurd hz hne
  · have hni := getManageSteps_no_invalidIntent_of_ne inp st resumes hz
    refine ⟨?_, ?_, DEBT_CHANGE_TO_CLOSE_ne_zero⟩
    · constructor
      · intro habs
        exact absurd habs hni
      · intro habs
        exact absurd habs hz
    · intro habs
      exact absurd habs hni

lemma both_zero_collateral_flag_false (inp : ManageStepsInputs) (st : ChainState)
    (ct : Token) (hC : collateralApprovalStepNeeded inp st ct = true) :
    ¬(inp.collateralChange = 0 ∧ inp.debtChange = 0) := by
  rintro ⟨h0, h1⟩
  unfold collateralApprovalStepNeeded collateralTokenAllowanceRequired at hC
  rw [h0] at hC
  simp at hC

lemma both_zero_r_flag_false (inp : ManageStepsInputs) (st : ChainState)
    (hR : rTokenApprovalStepNeeded inp st (effectiveCollateralToken inp) = true) :
    ¬(inp.collateralChange = 0 ∧ inp.debtChange = 0) := by
  rintro ⟨h0, h1⟩
  have hect : effectiveCollateralToken inp = inp.underlyingCollateralToken := by
    unfold effectiveCollateralToken
    have : ¬(inp.debtChange == DEBT_CHANGE_TO_CLOSE) = true := by
      simp [h1]
      exact fun hx => DEBT_CHANGE_TO_CLOSE_ne_zero hx.symm
    simp [h0]
    intro hxx
    exact absurd (by simp [hxx] : (inp.debtChange == DEBT_CHANGE_TO_CLOSE) = true) this
  unfold rTokenApprovalStepNeeded rTokenAllowanceRequired isUnderlyingTokenForPosition at hR
  rw [hect] at hR
  simp at hR

/-- C5: whenever a run's plan reaches a permit step whose resume point is fed
`undefined` (no signature injected) and no cached permit signature was
supplied (a permit step is only yielded when the cache is empty), the run
throws the permit-signature-required error for that token immediately after
that permit step: no further step of any kind, in particular no fallback
approve step, is yielded. This holds at the collateral permit site and, when
the collateral stage succeeded, at the R-token permit site. -/
theorem getManageSteps_permit_undefined_resume_errors (inp : ManageStepsInputs)
    (st : ChainState) (resumes : List (Option ERC20PermitSignatureStruct)) :
    (collateralApprovalStepNeeded inp st (effectiveCollateralToken inp) = true →
      canCollateralTokenUsePermit inp st (effectiveCollateralToken inp) = true →
      collInjected inp st (effectiveCollateralToken inp) resumes = none →
      getManageSteps inp st resumes
        = (wPart inp st (effectiveCollateralToken inp)
            ++ [expectedCollateralAuthStep inp st (effectiveCollateralToken inp)],
           some (ManageStepsError.permitSignatureRequired (effectiveCollateralToken inp))))
    ∧ (rTokenApprovalStepNeeded inp st (effectiveCollateralToken inp) = true →
      canUsePermit inp st = true →
      rInjected inp st (effectiveCollateralToken inp) resumes = none →
      (collateralApprovalStepNeeded inp st (effectiveCollateralToken inp) = true →
        canCollateralTokenUsePermit inp st (effectiveCollateralToken inp) = true →
        collInjected inp st (effectiveCollateralToken inp) resumes ≠ none) →
      getManageSteps inp st resumes
        = (wPart inp st (effectiveCollateralToken inp)
            ++ cPart inp st (effectiveCollateralToken inp)
            ++ [expectedRTokenAuthStep inp st (effectiveCollateralToken inp)],
           some (ManageStepsError.permitSignatureRequired Token.R))) := by
  constructor
  · intro hC hP hinj
    rcases getManageSteps_cases inp st resumes with ⟨h0, h1, heq⟩ | ⟨hne, heq⟩
    · exact absurd ⟨h0, h1⟩ (both_zero_collateral_flag_false inp st _ hC)
    rw [heq]
    rcases getManageStepsWith_spec inp st (effectiveCollateralToken inp) resumes with
      ⟨⟨sig, hs⟩, _, hc1, _⟩ | ⟨hs, _, _, _⟩ | ⟨hs, _, _, _, h5⟩ | ⟨hs, _, hc1, _⟩
    · exact absurd hinj (hc1 hC hP)
    · exact hs
    · exact absurd hinj (h5 hC hP)
    · exact absurd hinj (hc1 hC hP)
  · intro hR hP hinj hcollok
    rcases getManageSteps_cases inp st resumes with ⟨h0, h1, heq⟩ | ⟨hne, heq⟩
    · exact absurd ⟨h0, h1⟩ (both_zero_r_flag_false inp st hR)
    rw [heq]
    rcases getManageStepsWith_spec inp st (effectiveCollateralToken inp) resumes with
      ⟨⟨sig, hs⟩, _, _, hc2⟩ | ⟨hs, h2, h3, h4⟩ | ⟨hs, _, _, _, _⟩ | ⟨hs, _, _, hc2⟩
    · exact absurd hinj (hc2 hR hP)
    · exact absurd h4 (hcollok h2 h3)
    · exact hs
    · exact absurd hinj (hc2 hR hP)

theorem getManageSteps_permit_undefined_resume_errors_witness :
    (collateralApprovalStepNeeded wInpPermit wState (effectiveCollateralToken wInpPermit)
        = true
      ∧ canCollateralTokenUsePermit wInpPermit wState (effectiveCollateralToken wInpPermit)
          = true
      ∧ collInjected wInpPermit wState (effectiveCollateralToken wInpPermit) [] = none)
    ∧ getManageSteps wInpPermit wState []
        = (wPart wInpPermit wState (effectiveCollateralToken wInpPermit)
            ++ [expectedCollateralAuthStep wInpPermit wState
                  (effectiveCollateralToken wInpPermit)],
           some (ManageStepsError.permitSignatureRequired
             (effectiveCollateralToken wInpPermit))) :=
  ⟨⟨rfl, rfl, rfl⟩,
    (getManageSteps_permit_undefined_resume_errors wInpPermit wState []).1 rfl rfl rfl⟩

lemma mem_wPart_eq (inp : ManageStepsInputs) (st : ChainState) (ct : Token)
    (s : ManagePositionStep) (h : s ∈ wPart inp st ct) :
    s = expectedWhitelistStep inp st ct := by
  unfold wPart at h
  split at h
  · rwa [List.mem_singleton] at h
  · simp at h

lemma mem_cPart_eq (inp : ManageStepsInputs) (st : ChainState) (ct : Token)
    (s : ManagePositionStep) (h : s ∈ cPart inp st ct) :
    s = expectedCollateralAuthStep inp st ct := by
  unfold cPart at h
  split at h
  · rwa [List.mem_singleton] at h
  · simp at h

lemma mem_rPart_eq (inp : ManageStepsInputs) (st : ChainState) (ct : Token)
    (s : ManagePositionStep) (h : s ∈ rPart inp st ct) :
    s = expectedRTokenAuthStep inp st ct := by
  unfold rPart at h
  split at h
  · rwa [List.mem_singleton] at h
  · simp at h

lemma mem_cPart_type (inp : ManageStepsInputs) (st : ChainState) (ct : Token)
    (s : ManagePositionStep) (h : s ∈ cPart inp st ct) :
    s.type = ManageStepName.approve ct ∨ s.type = ManageStepName.permit ct := by
  rw [mem_cPart_eq inp st ct s h]
  unfold expectedCollateralAuthStep
  split
  · exact Or.inr rfl
  · exact Or.inl rfl

lemma mem_rPart_type (inp : ManageStepsInputs) (st : ChainState) (ct : Token)
    (s : ManagePositionStep) (h : s ∈ rPart inp st ct) :
    s.type = ManageStepName.approve Token.R ∨ s.type = ManageStepName.permit Token.R := by
  rw [mem_rPart_eq inp st ct s h]
  unfold expectedRTokenAuthStep
  split
  · exact Or.inr rfl
  · exact Or.inl rfl

lemma getManageSteps_member_cases (inp : ManageStepsInputs) (st : ChainState)
    (resumes : List (Option ERC20PermitSignatureStruct)) (s : ManagePositionStep)
    (h : s ∈ (getManageSteps inp st resumes).1) :
    s ∈ wPart inp st (effectiveCollateralToken inp)
    ∨ s ∈ cPart inp st (effectiveCollateralToken inp)
    ∨ s ∈ rPart inp st (effectiveCollateralToken inp)
    ∨ s.type = ManageStepName.manage := by
  rcases getManageSteps_cases inp st resumes with ⟨h0, h1, heq⟩ | ⟨hne, heq⟩
  · rw [heq] at h
    simp at h
  rw [heq] at h
  rcases getManageStepsWith_spec inp st (effectiveCollateralToken inp) resumes with
    ⟨⟨sig, hs⟩, _, _, _⟩ | ⟨hs, h2, _, _⟩ | ⟨hs, h2, _, _, _⟩ | ⟨hs, _, _, _⟩
  · rw [hs] at h
    simp only [List.mem_append, List.mem_singleton] at h
    rcases h with ((hw | hc) | hr) | hm
    · exact Or.inl hw
    · exact Or.inr (Or.inl hc)
    · exact Or.inr (Or.inr (Or.inl hr))
    · refine Or.inr (Or.inr (Or.inr ?_))
      rw [hm]
      rfl
  · rw [hs] at h
    simp only [List.mem_append, List.mem_singleton] at h
    rcases h with hw | hc
    · exact Or.inl hw
    · refine Or.inr (Or.inl ?_)
      unfold cPart
      rw [if_pos h2, List.mem_singleton]
      exact hc
  · rw [hs] at h
    simp only [List.mem_append, List.mem_singleton] at h
    rcases h with (hw | hc) | hr
    · exact Or.inl hw
    · exact Or.inr (Or.inl hc)
    · refine Or.inr (Or.inr (Or.inl ?_))
      unfold rPart
      rw [if_pos h2, List.mem_singleton]
      exact hr
  · rw [hs] at h
    simp only [List.mem_append, List.mem_singleton] at h
    rcases h with (hw | hc) | hr
    · exact Or.inl hw
    · exact Or.inr (Or.inl hc)
    · exact Or.inr (Or.inr (Or.inl hr))

lemma collateral_not_needed_of_cached_sig (inp : ManageStepsInputs) (st : ChainState)
    (ct : Token) (hP : canCollateralTokenUsePermit inp st ct = true)
    (hsig : inp.collateralPermitSignature.isSome = true) :
    collateralApprovalStepNeeded inp st ct = false := by
  cases hcs : inp.collateralPermitSignature with
  | none => rw [hcs] at hsig; cases hsig
  | some sig => simp [collateralApprovalStepNeeded, hP, hcs]

lemma rToken_not_needed_of_cached_sig (inp : ManageStepsInputs) (st : ChainState)
    (ct : Token) (hP : canUsePermit inp st = true)
    (hsig : inp.rPermitSignature.isSome = true) :
    rTokenApprovalStepNeeded inp st ct = false := by
  cases hcs : inp.rPermitSignature with
  | none => rw [hcs] at hsig; cases hsig
  | some sig => simp [rTokenApprovalStepNeeded, hP, hcs]

lemma collateral_needed_of_insufficient (inp : ManageStepsInputs) (st : ChainState)
    (ct : Token) (a : Dec) (hsome : inp.collateralTokenAllowance = some a)
    (hlt : a < inp.collateralChange)
    (hreq : collateralTokenAllowanceRequired inp st ct = true)
    (hdich : canCollateralTokenUsePermit inp st ct = false
      ∨ inp.collateralPermitSignature = none) :
    collateralApprovalStepNeeded inp st ct = true := by
  unfold collateralApprovalStepNeeded resolvedCollateralTokenAllowance
  rw [hreq, hsome]
  rcases hdich with hd | hd <;> simp [hd, hlt]

lemma rToken_needed_of_insufficient (inp : ManageStepsInputs) (st : ChainState)
    (ct : Token) (b : Dec) (hsome : inp.rTokenAllowance = some b)
    (hlt : b < |inp.debtChange|)
    (hreq : rTokenAllowanceRequired inp ct = true)
    (hdich : canUsePermit inp st = false ∨ inp.rPermitSignature = none) :
    rTokenApprovalStepNeeded inp st ct = true := by
  unfold rTokenApprovalStepNeeded resolvedRTokenAllowance
  rw [hreq, hsome]
  rcases hdich with hd | hd <;> simp [hd, hlt]

lemma no_collateral_auth_step_of_flag_false (inp : ManageStepsInputs) (st : ChainState)
    (resumes : List (Option ERC20PermitSignatureStruct))
    (hctR : effectiveCollateralToken inp ≠ Token.R)
    (hC : collateralApprovalStepNeeded inp st (effectiveCollateralToken inp) = false) :
    ∀ s ∈ (getManageSteps inp st resumes).1,
      s.type ≠ ManageStepName.approve (effectiveCollateralToken inp)
      ∧ s.type ≠ ManageStepName.permit (effectiveCollateralToken inp) := by
  intro s hmem
  rcases getManageSteps_member_cases inp st resumes s hmem with hw | hc | hr | hm
  · rw [mem_wPart_eq inp st _ s hw]
    constructor <;> simp [expectedWhitelistStep]
  · unfold cPart at hc
    rw [if_neg (by simp [hC])] at hc
    simp at hc
  · rcases mem_rPart_type inp st _ s hr with ht | ht <;> rw [ht] <;>
      constructor <;> simp <;> exact fun hx => hctR hx.symm
  · rw [hm]
    constructor <;> simp

lemma no_r_auth_step_of_flag_false (inp : ManageStepsInputs) (st : ChainState)
    (resumes : List (Option ERC20PermitSignatureStruct))
    (hctR : effectiveCollateralToken inp ≠ Token.R)
    (hR : rTokenApprovalStepNeeded inp st (effectiveCollateralToken inp) = false) :
    ∀ s ∈ (getManageSteps inp st resumes).1,
      s.type ≠ ManageStepName.approve Token.R
      ∧ s.type ≠ ManageStepName.permit Token.R := by
  intro s hmem
  rcases getManageSteps_member_cases inp st resumes s hmem with hw | hc | hr | hm
  · rw [mem_wPart_eq inp st _ s hw]
    constructor <;> simp [expectedWhitelistStep]
  · rcases mem_cPart_type inp st _ s hc with ht | ht <;> rw [ht] <;>
      constructor <;> simp <;> exact fun hx => hctR hx
  · unfold rPart at hr
    rw [if_neg (by simp [hR])] at hr
    simp at hr
  · rw [hm]
    constructor <;> simp

lemma collateral_auth_step_present (inp : ManageStepsInputs) (st : ChainState)
    (resumes : List (Option ERC20PermitSignatureStruct))
    (hC : collateralApprovalStepNeeded inp st (effectiveCollateralToken inp) = true) :
    ∃ s ∈ (getManageSteps inp st resumes).1,
      (s.type = ManageStepName.approve (effectiveCollateralToken inp)
        ∨ s.type = ManageStepName.permit (effectiveCollateralToken inp)) := by
  have hmemc : expectedCollateralAuthStep inp st (effectiveCollateralToken inp)
      ∈ cPart inp st (effectiveCollateralToken inp) := by
    unfold cPart
    rw [if_pos hC]
    exact List.mem_singleton.mpr rfl
  have hty := mem_cPart_type inp st (effectiveCollateralToken inp) _ hmemc
  rcases getManageSteps_cases inp st resumes with ⟨h0, h1, heq⟩ | ⟨hne, heq⟩
  · exact absurd ⟨h0, h1⟩ (both_zero_collateral_flag_false inp st _ hC)
  rw [heq]
  rcases getManageStepsWith_spec inp st (effectiveCollateralToken inp) resumes with
    ⟨⟨sig, hs⟩, _, _, _⟩ | ⟨hs, _, _, _⟩ | ⟨hs, _, _, _, _⟩ | ⟨hs, _, _, _⟩
  · rw [hs]
    refine ⟨_, ?_, hty⟩
    simp only [List.mem_append]
    exact Or.inl (Or.inl (Or.inr hmemc))
  · rw [hs]
    refine ⟨_, ?_, hty⟩
    simp only [List.mem_append]
    exact Or.inr (List.mem_singleton.mpr rfl)
  · rw [hs]
    refine ⟨_, ?_, hty⟩
    simp only [List.mem_append]
    exact Or.inl (Or.inr hmemc)
  · rw [hs]
    refine ⟨_, ?_, hty⟩
    simp only [List.mem_append]
    exact Or.inl (Or.inr hmemc)

lemma r_auth_step_present (inp : ManageStepsInputs) (st : ChainState)
    (resumes : List (Option ERC20PermitSignatureStruct))
    (hR : rTokenApprovalStepNeeded inp st (effectiveCollateralToken inp) = true)
    (hcollok : collateralApprovalStepNeeded inp st (effectiveCollateralToken inp) = true →
      canCollateralTokenUsePermit inp st (effectiveCollateralToken inp) = true →
      collInjected inp st (effectiveCollateralToken inp) resumes ≠ none) :
    ∃ s ∈ (getManageSteps inp st resumes).1,
      (s.type = ManageStepName.approve Token.R
        ∨ s.type = ManageStepName.permit Token.R) := by
  have hmemr : expectedRTokenAuthStep inp st (effectiveCollateralToken inp)
      ∈ rPart inp st (effectiveCollateralToken inp) := by
    unfold rPart
    rw [if_pos hR]
    exact List.mem_singleton.mpr rfl
  have hty := mem_rPart_type inp st (effectiveCollateralToken inp) _ hmemr
  rcases getManageSteps_cases inp st resumes with ⟨h0, h1, heq⟩ | ⟨hne, heq⟩
  · exact absurd ⟨h0, h1⟩ (both_zero_r_flag_false inp st hR)
  rw [heq]
  rcases getManageStepsWith_spec inp st (effectiveCollateralToken inp) resumes with
    ⟨⟨sig, hs⟩, _, _, _⟩ | ⟨hs, h2, h3, h4⟩ | ⟨hs, _, _, _, _⟩ | ⟨hs, _, _, _⟩
  · rw [hs]
    refine ⟨_, ?_, hty⟩
    simp only [List.mem_append]
    exact Or.inl (Or.inr hmemr)
  · exact absurd h4 (hcollok h2 h3)
  · rw [hs]
    refine ⟨_, ?_, hty⟩
    simp only [List.mem_append]
    exact Or.inr (List.mem_singleton.mpr rfl)
  · rw [hs]
    refine ⟨_, ?_, hty⟩
    simp only [List.mem_append]
    exact Or.inr hmemr

/-- C6 counterexample: a cached collateral permit signature whose `value` (0)
is below the requested amount (100), with the on-chain allowance (0) also
insufficient, still suppresses the authorization step entirely: the plan is
just the `manage` step. The claim's "if and only if it is sufficient for the
requested amount" is false for cached permit signatures, whose amount the
planner never examines. -/
theorem cached_insufficient_signature_still_suppresses :
    c6CachedSig.value < c6Inp.collateralChange
    ∧ c6Inp.collateralPermitSignature = some c6CachedSig
    ∧ canCollateralTokenUsePermit c6Inp wState (effectiveCollateralToken c6Inp) = true
    ∧ c6Inp.collateralTokenAllowance = some 0
    ∧ collateralTokenAllowanceRequired c6Inp wState (effectiveCollateralToken c6Inp) = true
    ∧ (getManageSteps c6Inp wState []).2 = none
    ∧ (getManageSteps c6Inp wState []).1.map (fun s => s.type)
        = [ManageStepName.manage] :=
  ⟨by decide, rfl, rfl, rfl, rfl, rfl, rfl⟩

/-- C6 (amended): a cached allowance suppresses the corresponding
authorization step exactly when it is at least the requested amount, and an
insufficient cached allowance leads to a fresh Approve/Permit step being
emitted; a cached permit signature, however, is never checked against the
requested amount: whenever permit can be used, a supplied cached signature
suppresses the corresponding authorization step regardless of its value. -/
theorem cached_values_suppression (inp : ManageStepsInputs) (st : ChainState)
    (resumes : List (Option ERC20PermitSignatureStruct)) (a b : Dec)
    (hctR : effectiveCollateralToken inp ≠ Token.R) :
    (inp.collateralTokenAllowance = some a → inp.collateralChange ≤ a →
      ∀ s ∈ (getManageSteps inp st resumes).1,
        s.type ≠ ManageStepName.approve (effectiveCollateralToken inp)
        ∧ s.type ≠ ManageStepName.permit (effectiveCollateralToken inp))
    ∧ (canCollateralTokenUsePermit inp st (effectiveCollateralToken inp) = true →
        inp.collateralPermitSignature.isSome = true →
        ∀ s ∈ (getManageSteps inp st resumes).1,
          s.type ≠ ManageStepName.approve (effectiveCollateralToken inp)
          ∧ s.type ≠ ManageStepName.permit (effectiveCollateralToken inp))
    ∧ (inp.collateralTokenAllowance = some a → a < inp.collateralChange →
        collateralTokenAllowanceRequired inp st (effectiveCollateralToken inp) = true →
        (canCollateralTokenUsePermit inp st (effectiveCollateralToken inp) = false
          ∨ inp.collateralPermitSignature = none) →
        ∃ s ∈ (getManageSteps inp st resumes).1,
          (s.type = ManageStepName.approve (effectiveCollateralToken inp)
            ∨ s.type = ManageStepName.permit (effectiveCollateralToken inp)))
    ∧ (inp.rTokenAllowance = some b → |inp.debtChange| ≤ b →
        ∀ s ∈ (getManageSteps inp st resumes).1,
          s.type ≠ ManageStepName.approve Token.R
          ∧ s.type ≠ ManageStepName.permit Token.R)
    ∧ (canUsePermit inp st = true → inp.rPermitSignature.isSome = true →
        ∀ s ∈ (getManageSteps inp st resumes).1,
          s.type ≠ ManageStepName.approve Token.R
          ∧ s.type ≠ ManageStepName.permit Token.R)
    ∧ (inp.rTokenAllowance = some b → b < |inp.debtChange| →
        rTokenAllowanceRequired inp (effectiveCollateralToken inp) = true →
        (canUsePermit inp st = false ∨ inp.rPermitSignature = none) →
        (collateralApprovalStepNeeded inp st (effectiveCollateralToken inp) = true →
          canCollateralTokenUsePermit inp st (effectiveCollateralToken inp) = true →
          collInjected inp st (effectiveCollateralToken inp) resumes ≠ none) →
        ∃ s ∈ (getManageSteps inp st resumes).1,
          (s.type = ManageStepName.approve Token.R
            ∨ s.type = ManageStepName.permit Token.R)) := by
  refine ⟨?_, ?_, ?_, ?_, ?_, ?_⟩
  · intro hsome hle
    refine no_collateral_auth_step_of_flag_false inp st resumes hctR ?_
    refine collateral_not_needed_of_allowance inp st _ ?_
    rw [hsome]
    exact hle
  · intro hP hsig
    exact no_collateral_auth_step_of_flag_false inp st resumes hctR
      (collateral_not_needed_of_cached_sig inp st _ hP hsig)
  · intro hsome hlt hreq hdich
    exact collateral_auth_step_present inp st resumes
      (collateral_needed_of_insufficient inp st _ a hsome hlt hreq hdich)
  · intro hsome hle
    refine no_r_auth_step_of_flag_false inp st resumes hctR ?_
    refine rToken_not_needed_of_allowance inp st _ ?_
    rw [hsome]
    exact hle
  · intro hP hsig
    exact no_r_auth_step_of_flag_false inp st resumes hctR
      (rToken_not_needed_of_cached_sig inp st _ hP hsig)
  · intro hsome hlt hreq hdich hcollok
    exact r_auth_step_present inp st resumes
      (rToken_needed_of_insufficient inp st _ b hsome hlt hreq hdich) hcollok

theorem cached_values_suppression_witness :
    (effectiveCollateralToken wInpAllSteps ≠ Token.R
      ∧ effectiveCollateralToken wInpPlain ≠ Token.R)
    ∧ ((wInpAllSteps.collateralTokenAllowance = some 0 → wInpAllSteps.collateralChange ≤ 0 →
      ∀ s ∈ (getManageSteps wInpAllSteps wState []).1,
        s.type ≠ ManageStepName.approve (effectiveCollateralToken wInpAllSteps)
        ∧ s.type ≠ ManageStepName.permit (effectiveCollateralToken wInpAllSteps))
    ∧ (canCollateralTokenUsePermit wInpAllSteps wState (effectiveCollateralToken wInpAllSteps)
          = true →
        wInpAllSteps.collateralPermitSignature.isSome = true →
        ∀ s ∈ (getManageSteps wInpAllSteps wState []).1,
          s.type ≠ ManageStepName.approve (effectiveCollateralToken wInpAllSteps)
          ∧ s.type ≠ ManageStepName.permit (effectiveCollateralToken wInpAllSteps))
    ∧ (wInpAllSteps.collateralTokenAllowance = some 0 →
        (0 : Dec) < wInpAllSteps.collateralChange →
        collateralTokenAllowanceRequired wInpAllSteps wState
          (effectiveCollateralToken wInpAllSteps) = true →
        (canCollateralTokenUsePermit wInpAllSteps wState (effectiveCollateralToken wInpAllSteps)
            = false
          ∨ wInpAllSteps.collateralPermitSignature = none) →
        ∃ s ∈ (getManageSteps wInpAllSteps wState []).1,
          (s.type = ManageStepName.approve (effectiveCollateralToken wInpAllSteps)
            ∨ s.type = ManageStepName.permit (effectiveCollateralToken wInpAllSteps)))
    ∧ (wInpAllSteps.rTokenAllowance = some 0 → |wInpAllSteps.debtChange| ≤ 0 →
        ∀ s ∈ (getManageSteps wInpAllSteps wState []).1,
          s.type ≠ ManageStepName.approve Token.R
          ∧ s.type ≠ ManageStepName.permit Token.R)
    ∧ (canUsePermit wInpAllSteps wState = true → wInpAllSteps.rPermitSignature.isSome = true →
        ∀ s ∈ (getManageSteps wInpAllSteps wState []).1,
          s.type ≠ ManageStepName.approve Token.R
          ∧ s.type ≠ ManageStepName.permit Token.R)
    ∧ (wInpAllSteps.rTokenAllowance = some 0 → (0 : Dec) < |wInpAllSteps.debtChange| →
        rTokenAllowanceRequired wInpAllSteps (effectiveCollateralToken wInpAllSteps) = true →
        (canUsePermit wInpAllSteps wState = false ∨ wInpAllSteps.rPermitSignature = none) →
        (collateralApprovalStepNeeded wInpAllSteps wState (effectiveCollateralToken wInpAllSteps)
            = true →
          canCollateralTokenUsePermit wInpAllSteps wState (effectiveCollateralToken wInpAllSteps)
            = true →
          collInjected wInpAllSteps wState (effectiveCollateralToken wInpAllSteps) [] ≠ none) →
        ∃ s ∈ (getManageSteps wInpAllSteps wState []).1,
          (s.type = ManageStepName.approve Token.R
            ∨ s.type = ManageStepName.permit Token.R)))
    ∧ (∃ s ∈ (getManageSteps wInpAllSteps wState []).1,
        (s.type = ManageStepName.approve (effectiveCollateralToken wInpAllSteps)
          ∨ s.type = ManageStepName.permit (effectiveCollateralToken wInpAllSteps)))
    ∧ (∃ s ∈ (getManageSteps wInpAllSteps wState []).1,
        (s.type = ManageStepName.approve Token.R
          ∨ s.type = ManageStepName.permit Token.R))
    ∧ (∀ s ∈ (getManageSteps wInpPlain wState []).1,
        s.type ≠ ManageStepName.approve (effectiveCollateralToken wInpPlain)
        ∧ s.type ≠ ManageStepName.permit (effectiveCollateralToken wInpPlain))
    ∧ (∀ s ∈ (getManageSteps wInpPlain wState []).1,
        s.type ≠ ManageStepName.approve Token.R
        ∧ s.type ≠ ManageStepName.permit Token.R) :=
  ⟨⟨by decide, by decide⟩,
    cached_values_suppression wInpAllSteps wState [] 0 0 (by decide),
    (cached_values_suppression wInpAllSteps wState [] 0 0 (by decide)).2.2.1 rfl (by decide)
      rfl (Or.inl rfl),
    (cached_values_suppression wInpAllSteps wState [] 0 0 (by decide)).2.2.2.2.2 rfl
      (by decide) rfl (Or.inl rfl) (fun _ h2 => absurd h2 (by decide)),
    (cached_values_suppression wInpPlain wState [] 100 100 (by decide)).1 rfl (by decide),
    (cached_values_suppression wInpPlain wState [] 100 100 (by decide)).2.2.2.1 rfl
      (by decide)⟩


/-- C7: when the position owner is not an externally-owned account, or the
approval preference is `approve`, no permit step is ever offered, and every
authorization step in the plan is an approve step whose action approves
exactly the requested amount (the collateral change for the collateral
token, the absolute debt change for the R token) for the route's position
manager — never an unlimited allowance. -/
theorem approve_only_for_non_eoa_or_approve_preference (inp : ManageStepsInputs)
    (st : ChainState) (resumes : List (Option ERC20PermitSignatureStruct))
    (hnp : st.isEoaPositionOwner = false ∨ inp.approvalType = ApprovalType.approve)
    (hctR : effectiveCollateralToken inp ≠ Token.R) :
    ∀ s ∈ (getManageSteps inp st resumes).1,
      (∀ tok, s.type ≠ ManageStepName.permit tok)
      ∧ (s.type = ManageStepName.approve (effectiveCollateralToken inp) →
          s.action = StepAction.approveTx (effectiveCollateralToken inp)
            (posMgrAddr inp st (effectiveCollateralToken inp)) inp.collateralChange)
      ∧ (s.type = ManageStepName.approve Token.R →
          s.action = StepAction.approveTx Token.R
            (posMgrAddr inp st (effectiveCollateralToken inp)) |inp.debtChange|) := by
  have hcu : canUsePermit inp st = false := by
    unfold canUsePermit
    rcases hnp with hd | hd <;> simp [hd]
  have hccu : canCollateralTokenUsePermit inp st (effectiveCollateralToken inp) = false := by
    unfold canCollateralTokenUsePermit
    simp [hcu]
  have hcexp : expectedCollateralAuthStep inp st (effectiveCollateralToken inp)
      = { type := ManageStepName.approve (effectiveCollateralToken inp)
          stepNumber := collAuthStepNumber inp st (effectiveCollateralToken inp)
          numberOfSteps := numberOfManageSteps inp st (effectiveCollateralToken inp)
          action := StepAction.approveTx (effectiveCollateralToken inp)
            (posMgrAddr inp st (effectiveCollateralToken inp)) inp.collateralChange } := by
    unfold expectedCollateralAuthStep
    rw [if_neg (by simp [hccu])]
  have hrexp : expectedRTokenAuthStep inp st (effectiveCollateralToken inp)
      = { type := ManageStepName.approve Token.R
          stepNumber := rAuthStepNumber inp st (effectiveCollateralToken inp)
          numberOfSteps := numberOfManageSteps inp st (effectiveCollateralToken inp)
          action := StepAction.approveTx Token.R
            (posMgrAddr inp st (effectiveCollateralToken inp)) |inp.debtChange| } := by
    unfold expectedRTokenAuthStep
    rw [if_neg (by simp [hcu])]
  intro s hmem
  rcases getManageSteps_member_cases inp st resumes s hmem with hw | hc | hr | hm
  · rw [mem_wPart_eq inp st _ s hw]
    refine ⟨?_, ?_, ?_⟩
    · intro tok
      simp [expectedWhitelistStep]
    · intro habs
      simp [expectedWhitelistStep] at habs
    · intro habs
      simp [expectedWhitelistStep] at habs
  · rw [mem_cPart_eq inp st _ s hc, hcexp]
    refine ⟨?_, ?_, ?_⟩
    · intro tok
      simp
    · intro _
      rfl
    · intro habs
      simp at habs
      exact absurd habs hctR
  · rw [mem_rPart_eq inp st _ s hr, hrexp]
    refine ⟨?_, ?_, ?_⟩
    · intro tok
      simp
    · intro habs
      simp at habs
      exact absurd habs.symm hctR
    · intro _
      rfl
  · refine ⟨?_, ?_, ?_⟩
    · intro tok
      rw [hm]
      simp
    · intro habs
      rw [hm] at habs
      simp at habs
    · intro habs
      rw [hm] at habs
      simp at habs

theorem approve_only_for_non_eoa_or_approve_preference_witness :
    ((wState.isEoaPositionOwner = false ∨ wInpAllSteps.approvalType = ApprovalType.approve)
      ∧ effectiveCollateralToken wInpAllSteps ≠ Token.R)
    ∧ (∀ s ∈ (getManageSteps wInpAllSteps wState []).1,
      (∀ tok, s.type ≠ ManageStepName.permit tok)
      ∧ (s.type = ManageStepName.approve (effectiveCollateralToken wInpAllSteps) →
          s.action = StepAction.approveTx (effectiveCollateralToken wInpAllSteps)
            (posMgrAddr wInpAllSteps wState (effectiveCollateralToken wInpAllSteps))
            wInpAllSteps.collateralChange)
      ∧ (s.type = ManageStepName.approve Token.R →
          s.action = StepAction.approveTx Token.R
            (posMgrAddr wInpAllSteps wState (effectiveCollateralToken wInpAllSteps))
            |wInpAllSteps.debtChange|)) :=
  ⟨⟨Or.inr rfl, by decide⟩,
    approve_only_for_non_eoa_or_approve_preference wInpAllSteps wState [] (Or.inr rfl)
      (by decide)⟩

/-- C8: the permit step's action returns a freshly signed permit signature:
its deadline is the current time (in seconds) plus 30 minutes, the signing
domain is bound to the token's on-chain name and the network's chain id, and
the returned v, r, s are exactly the signer's signature over that request,
for exactly the requested amount. -/
theorem createPermitSignature_deadline_and_domain (nowMs networkId : Nat)
    (signerAddress : String) (nonce : Nat) (tokenAddress tokenName : String)
    (amount : Dec) (spenderAddress : String)
    (sign : PermitSignRequest → Nat × String × String) :
    (createPermitSignature nowMs networkId signerAddress nonce tokenAddress tokenName
        amount spenderAddress sign).deadline = nowMs / 1000 + 30 * 60
    ∧ (permitSignRequest nowMs networkId signerAddress nonce tokenAddress tokenName
        amount spenderAddress).deadline = nowMs / 1000 + 30 * 60
    ∧ (permitSignRequest nowMs networkId signerAddress nonce tokenAddress tokenName
        amount spenderAddress).domainName = tokenName
    ∧ (permitSignRequest nowMs networkId signerAddress nonce tokenAddress tokenName
        amount spenderAddress).domainChainId = networkId
    ∧ (createPermitSignature nowMs networkId signerAddress nonce tokenAddress tokenName
        amount spenderAddress sign).value = amount
    ∧ (createPermitSignature nowMs networkId signerAddress nonce tokenAddress tokenName
        amount spenderAddress sign).v
        = (sign (permitSignRequest nowMs networkId signerAddress nonce tokenAddress
            tokenName amount spenderAddress)).1
    ∧ (createPermitSignature nowMs networkId signerAddress nonce tokenAddress tokenName
        amount spenderAddress sign).r
        = (sign (permitSignRequest nowMs networkId signerAddress nonce tokenAddress
            tokenName amount spenderAddress)).2.1
    ∧ (createPermitSignature nowMs networkId signerAddress nonce tokenAddress tokenName
        amount spenderAddress sign).s
        = (sign (permitSignRequest nowMs networkId signerAddress nonce tokenAddress
            tokenName amount spenderAddress)).2.2 :=
  ⟨rfl, rfl, rfl, rfl, rfl, rfl, rfl, rfl⟩

/-- C9 (code bug): when a step's action rejects during a driven `manage`
run, the error propagates to the caller WITHOUT the matching end lifecycle
callback being invoked — the driver loop has no try/catch, so the claimed
single observation point (the end callback receiving the error before the
rethrow) never happens. At the failing input (a whitelist step whose action
rejects) the emitted events are exactly the start callback: no
`delegateWhitelistingEnd` event, with or without the error, is ever emitted,
although the error escapes the run. -/
theorem manage_rejected_action_skips_end_callback :
    manageDriverRun [(ManageStepName.whitelist, ActionOutcome.actionRejected "boom")]
      = ([DriverEvent.delegateWhitelistingStart], some "boom")
    ∧ (DriverEvent.delegateWhitelistingEnd (some "boom"))
        ∉ (manageDriverRun
            [(ManageStepName.whitelist, ActionOutcome.actionRejected "boom")]).1
    ∧ (DriverEvent.delegateWhitelistingEnd none)
        ∉ (manageDriverRun
            [(ManageStepName.whitelist, ActionOutcome.actionRejected "boom")]).1 :=
  ⟨rfl, by decide, by decide⟩

set_option maxRecDepth 4096 in
theorem getManageSteps_debt_only_uses_underlying_witness :
    (wInpDebtOnly.collateralChange = 0
      ∧ wInpDebtOnly.debtChange ≠ 0
      ∧ wInpDebtOnly.debtChange ≠ DEBT_CHANGE_TO_CLOSE
      ∧ isUnderlyingCollateralToken wInpDebtOnly.underlyingCollateralToken = true)
    ∧ (effectiveCollateralToken wInpDebtOnly = wInpDebtOnly.underlyingCollateralToken
      ∧ (∀ s ∈ (getManageSteps wInpDebtOnly wState []).1,
          s.type ≠ ManageStepName.whitelist)
      ∧ (∃ sig, getManageSteps wInpDebtOnly wState []
          = ([expectedManageStep wInpDebtOnly wState
              wInpDebtOnly.underlyingCollateralToken sig], none))
      ∧ expectedManageKind wInpDebtOnly wInpDebtOnly.underlyingCollateralToken
          = PositionManagerKind.base) :=
  ⟨⟨rfl, by decide, by decide, rfl⟩,
    getManageSteps_debt_only_uses_underlying wInpDebtOnly wState [] rfl (by decide)
      (by decide) rfl⟩

end RaftSdk
